import Mathlib

/-!
# PhoLight relay server (server/index.js)

A shallow embedding of the WebSocket relay server: the password functions
(generateSecurePassword, initializePassword, validatePassword,
generateNewPassword), the connection / message / close handlers and
broadcastParticipantCount, followed by theorems about them.

Modelling conventions.

* A connection object is named by a natural number. The properties the server
  reads or writes on it (isHost, readyState) live in the state as functions of
  that name, so that a connection keeps its properties whether or not it is in
  the clients array.
* An inbound payload is the result of JSON.parse: either a failure (the
  exception is caught by the handler) or a JSON value.
* Every call of ws.send is recorded, in call order, as a pair of the target
  connection and the message object handed to JSON.stringify.
* Date.now() and the three Math.random() draws of one handler run are inputs.
  The clock is read as one value per handler run.
-/

namespace PhoLight

/-! ## JSON values and the JavaScript operators applied to them -/

/-- A value returned by JSON.parse. Number literals are kept as integers: the
server only tests numbers for truthiness and echoes them. The fields of an
object list its own properties; a read takes the first entry of a key. -/
inductive JVal where
  | null : JVal
  | bool (b : Bool) : JVal
  | num (n : Int) : JVal
  | str (s : String) : JVal
  | arr (items : List JVal) : JVal
  | obj (fields : List (String × JVal)) : JVal

/-- JavaScript truthiness of the result of a property read; none stands for
undefined. -/
def truthy : Option JVal → Bool
  | none => false
  | some JVal.null => false
  | some (JVal.bool b) => b
  | some (JVal.num n) => n != 0
  | some (JVal.str s) => s != ""
  | some (JVal.arr _) => true
  | some (JVal.obj _) => true

/-- The read data.key for one of the keys the server uses (type, password,
color, mode, effect) on a non-null parsed value: the own property of an
object, undefined on anything else. A read on null throws and is handled by
the caller. -/
def prop (data : JVal) (key : String) : Option JVal :=
  match data with
  | JVal.obj fields => fields.lookup key
  | _ => none

/-- The comparison v === s against a string literal s. -/
def strictEqStr (v : Option JVal) (s : String) : Bool :=
  match v with
  | some (JVal.str t) => t == s
  | _ => false

/-- The expression v || s with a string literal s as the fallback. -/
def orElseStr (v : Option JVal) (s : String) : JVal :=
  match v with
  | some x => if truthy (some x) then x else JVal.str s
  | none => JVal.str s

/-! ## State, environment and outbound messages -/

/-- The module-level state of the server together with the properties of the
connection objects. The counter variable participantCount of the source is
never read or written after its declaration and is left out. -/
structure ServerState where
  /-- The clients array, in insertion order. -/
  clients : List Nat
  /-- The isHost property of each connection object. -/
  isHost : Nat → Bool
  /-- The readyState property of each connection object (set by the transport). -/
  readyState : Nat → Nat
  /-- The current shared secret. -/
  currentPassword : String
  /-- The absolute time, in milliseconds, at which the secret expires. -/
  passwordExpiry : Nat

/-- The three values Math.floor(Math.random() * k) computed by one call of
generateSecurePassword. -/
structure Draws where
  /-- The draw Math.floor(Math.random() * 900). -/
  numbers : Fin 900
  /-- The draw Math.floor(Math.random() * adjectives.length). -/
  adjective : Fin 10
  /-- The draw Math.floor(Math.random() * nouns.length). -/
  noun : Fin 10

/-- What one handler run reads from its environment. -/
structure Env where
  /-- The value of Date.now(). -/
  now : Nat
  /-- The random draws available to a password generation. -/
  draws : Draws

/-- The objects the server serialises with JSON.stringify. -/
inductive OutMsg where
  | loginSuccess (message : String) : OutMsg
  | loginError (message : String) : OutMsg
  | passwordResponse (password : String) : OutMsg
  | logoutSuccess (newPassword : String) : OutMsg
  | participantCount (count : Nat) : OutMsg
  | hostColor (color : JVal) (mode : JVal) : OutMsg
  | hostEffect (effect : JVal) (color : JVal) : OutMsg

/-- One call target.send(JSON.stringify(msg)). -/
structure Send where
  /-- The connection whose send method is called. -/
  target : Nat
  /-- The message object. -/
  msg : OutMsg

/-- The exception a handler run can end with. -/
inductive JsError where
  | typeError : JsError

/-- The readyState constant OPEN of the ws library. -/
def OPEN : Nat := 1

/-- The constant PASSWORD_DURATION: 24 hours in milliseconds. -/
def PASSWORD_DURATION : Nat := 24 * 60 * 60 * 1000

/-! ## Password management -/

/-- The adjective list of generateSecurePassword. -/
def adjectives : List String :=
  ["Happy", "Bright", "Cool", "Wild", "Fun", "Epic", "Amazing", "Awesome", "Super", "Magic"]

/-- The noun list of generateSecurePassword. -/
def nouns : List String :=
  ["Party", "Light", "Show", "Night", "Dance", "Beat", "Wave", "Glow", "Spark", "Flash"]

/-- The function generateSecurePassword: adjective, noun and a number in
100..999, concatenated. -/
def generateSecurePassword (d : Draws) : String :=
  let numbers := d.numbers.val + 100
  let adjective := adjectives.getD d.adjective.val ""
  let noun := nouns.getD d.noun.val ""
  adjective ++ noun ++ toString numbers

/-- The function initializePassword: a fresh secret, expiring 24 hours from now. -/
def initializePassword (s : ServerState) (env : Env) : ServerState :=
  { s with
    currentPassword := generateSecurePassword env.draws
    passwordExpiry := env.now + PASSWORD_DURATION }

/-- The function validatePassword, returning its result and the state it leaves. -/
def validatePassword (s : ServerState) (env : Env) (password : Option JVal) :
    Bool × ServerState :=
  if !truthy password || !strictEqStr password s.currentPassword then
    (false, s)
  else if env.now > s.passwordExpiry then
    (false, initializePassword s env)
  else
    (true, s)

/-- The function generateNewPassword, returning the new secret and the state. -/
def generateNewPassword (s : ServerState) (env : Env) : String × ServerState :=
  let s1 := initializePassword s env
  (s1.currentPassword, s1)

/-! ## Handlers -/

/-- The loop clients.forEach(c => { if (cond(c)) c.send(m) }). -/
def forEachSend (cond : Nat → Bool) (m : OutMsg) : List Nat → List Send
  | [] => []
  | c :: rest =>
    if cond c then { target := c, msg := m } :: forEachSend cond m rest
    else forEachSend cond m rest

/-- The function broadcastParticipantCount. -/
def broadcastParticipantCount (s : ServerState) : List Send :=
  let nonHostClients := s.clients.filter (fun client => !s.isHost client)
  let message := OutMsg.participantCount nonHostClients.length
  forEachSend (fun client => s.readyState client == OPEN) message s.clients

/-- The body of the message handler after JSON.parse returned a non-null value.
The echoed properties data.color and data.effect are read under a guard that
has found them truthy, hence present. -/
def handleParsed (s : ServerState) (ws : Nat) (env : Env) (data : JVal) :
    ServerState × List Send :=
  if strictEqStr (prop data "type") "host-login" then
    let password := prop data "password"
    let r := validatePassword s env password
    if r.1 then
      ({ r.2 with isHost := Function.update r.2.isHost ws true },
        [{ target := ws, msg := OutMsg.loginSuccess "Login successful" }])
    else
      (r.2, [{ target := ws, msg := OutMsg.loginError "Invalid or expired password" }])
  else if strictEqStr (prop data "type") "request-password" then
    (s, [{ target := ws, msg := OutMsg.passwordResponse s.currentPassword }])
  else if strictEqStr (prop data "type") "host-logout" then
    if s.isHost ws then
      let s1 := { s with isHost := Function.update s.isHost ws false }
      let r := generateNewPassword s1 env
      (r.2, [{ target := ws, msg := OutMsg.logoutSuccess r.1 }])
    else
      (s, [])
  else if strictEqStr (prop data "type") "set-host" then
    ({ s with isHost := Function.update s.isHost ws true }, [])
  else
    let colorSends :=
      if strictEqStr (prop data "type") "host-color" && truthy (prop data "color") then
        let modeKey := orElseStr (prop data "mode") "static"
        forEachSend (fun c => !s.isHost c && s.readyState c == OPEN)
          (OutMsg.hostColor ((prop data "color").getD JVal.null) modeKey) s.clients
      else []
    let effectSends :=
      if strictEqStr (prop data "type") "host-effect" && truthy (prop data "effect")
          && truthy (prop data "color") then
        forEachSend (fun c => !s.isHost c && s.readyState c == OPEN)
          (OutMsg.hostEffect ((prop data "effect").getD JVal.null)
            ((prop data "color").getD JVal.null)) s.clients
      else []
    (s, colorSends ++ effectSends)

/-- The message handler of connection ws. The payload is none when JSON.parse
throws (the handler catches and returns); on the value null the read
data.type throws a TypeError that nothing catches. -/
def onMessage (s : ServerState) (ws : Nat) (env : Env) (payload : Option JVal) :
    Except JsError (ServerState × List Send) :=
  match payload with
  | none => Except.ok (s, [])
  | some JVal.null => Except.error JsError.typeError
  | some data => Except.ok (handleParsed s ws env data)

/-- The connection handler for the new connection object ws. -/
def onConnection (s : ServerState) (ws : Nat) : ServerState × List Send :=
  let s1 := { s with isHost := Function.update s.isHost ws false }
  let s2 := { s1 with clients := s1.clients ++ [ws] }
  (s2, broadcastParticipantCount s2)

/-- The close handler of connection ws. -/
def onClose (s : ServerState) (ws : Nat) : ServerState × List Send :=
  let s1 := { s with clients := s.clients.erase ws }
  (s1, broadcastParticipantCount s1)

/-- The events the server reacts to. -/
inductive Event where
  | connect (ws : Nat) : Event
  | message (ws : Nat) (payload : Option JVal) : Event
  | close (ws : Nat) : Event

/-- One event processed to completion. -/
def step (s : ServerState) (env : Env) (e : Event) :
    Except JsError (ServerState × List Send) :=
  match e with
  | Event.connect ws => Except.ok (onConnection s ws)
  | Event.message ws payload => onMessage s ws env payload
  | Event.close ws => Except.ok (onClose s ws)

/-- A sequence of events, each with the environment it is processed in, run
from state s. An uncaught exception ends the run. -/
def run (s : ServerState) : List (Env × Event) → Except JsError ServerState
  | [] => Except.ok s
  | (env, e) :: rest =>
    match step s env e with
    | Except.ok r => run r.1 rest
    | Except.error err => Except.error err

/-! ## Concrete scenario data -/

/-- A state with connection 0 in Host role and connections 1 and 2 in Audience
role, all open, the secret HappyParty100 expiring at time 90000000. -/
def scenarioState : ServerState :=
  { clients := [0, 1, 2]
    isHost := fun c => decide (c = 0)
    readyState := fun _ => OPEN
    currentPassword := "HappyParty100"
    passwordExpiry := 90000000 }

/-- An environment at time 5000 whose draws generate CoolWave482. -/
def scenarioEnv : Env :=
  { now := 5000, draws := { numbers := 382, adjective := 2, noun := 6 } }

/-- The fields of the host-color message of scenario D. -/
def colorFields : List (String × JVal) :=
  [("type", JVal.str "host-color"), ("color", JVal.str "#ff0080"), ("mode", JVal.str "static")]

/-- The fields of the host-login message of scenario C. -/
def wrongLoginFields : List (String × JVal) :=
  [("type", JVal.str "host-login"), ("password", JVal.str "wrong")]

/-- The fields of the legacy set-host message. -/
def setHostFields : List (String × JVal) :=
  [("type", JVal.str "set-host")]

/-- The fields of a host-effect message. -/
def effectFields : List (String × JVal) :=
  [("type", JVal.str "host-effect"), ("effect", JVal.str "strobe"), ("color", JVal.str "#00ff00")]

/-- The fields of the host-logout message. -/
def logoutFields : List (String × JVal) :=
  [("type", JVal.str "host-logout")]

/-- The scenario state with the secret CoolWave482, the one the draws of
scenarioEnv generate. -/
def repeatState : ServerState :=
  { scenarioState with currentPassword := "CoolWave482" }

/-- The fields of a host-login message carrying CoolWave482. -/
def repeatLoginFields : List (String × JVal) :=
  [("type", JVal.str "host-login"), ("password", JVal.str "CoolWave482")]

/-- An environment at the later time 6000. -/
def laterEnv : Env :=
  { now := 6000, draws := { numbers := 0, adjective := 0, noun := 0 } }

/-- The scenario state with an expiry of 1000, which is in the past at the
time 5000 of scenarioEnv. -/
def expiredState : ServerState :=
  { scenarioState with passwordExpiry := 1000 }

/-- The fields of a host-effect message without a color. -/
def effectNoColorFields : List (String × JVal) :=
  [("type", JVal.str "host-effect"), ("effect", JVal.str "strobe")]

/-- The state before any connection: an empty clients array, no Host, every
connection object open, the secret HappyParty100. -/
def emptyState : ServerState :=
  { clients := []
    isHost := fun _ => false
    readyState := fun _ => OPEN
    currentPassword := "HappyParty100"
    passwordExpiry := 90000000 }

/-- The module state once the top-level statements have run: clients is
empty, no connection object exists (every isHost reads falsy), and
initializePassword has replaced the initial values of currentPassword and
passwordExpiry. The readyState of the connection objects is the transport's. -/
def initialState (readyState : Nat → Nat) (env : Env) : ServerState :=
  initializePassword
    { clients := []
      isHost := fun _ => false
      readyState := readyState
      currentPassword := ""
      passwordExpiry := 0 } env

/-- The secret of the state is a value returned by generateSecurePassword. -/
def SecretGenerated (s : ServerState) : Prop :=
  ∃ d : Draws, s.currentPassword = generateSecurePassword d

/-- The type values the message handler has a branch for. -/
def handledTypes : List String :=
  ["host-login", "request-password", "host-logout", "set-host", "host-color", "host-effect"]

/-- The fields of the request-password message. -/
def requestPasswordFields : List (String × JVal) :=
  [("type", JVal.str "request-password")]

/-- The fields of the client-connect message the audience page sends. -/
def clientConnectFields : List (String × JVal) :=
  [("type", JVal.str "client-connect")]

/-! ## Auxiliary lemmas -/

theorem forEachSend_eq_map_filter (cond : Nat → Bool) (m : OutMsg) (l : List Nat) :
    forEachSend cond m l = (l.filter cond).map (fun c => { target := c, msg := m }) := by
  induction l with
  | nil => rfl
  | cons c rest ih =>
    by_cases h : cond c = true
    · simp [forEachSend, h, ih]
    · simp [forEachSend, h, ih]

theorem strictEqStr_iff (v : Option JVal) (t : String) :
    strictEqStr v t = true ↔ v = some (JVal.str t) := by
  cases v with
  | none => simp [strictEqStr]
  | some x => cases x <;> simp [strictEqStr]

theorem truthy_str (t : String) : truthy (some (JVal.str t)) = true ↔ t ≠ "" := by
  simp [truthy]

theorem orElseStr_truthy (m : JVal) (t : String) (h : truthy (some m) = true) :
    orElseStr (some m) t = m := by
  simp [orElseStr, h]

theorem orElseStr_falsy (v : Option JVal) (t : String) (h : truthy v = false) :
    orElseStr v t = JVal.str t := by
  cases v with
  | none => rfl
  | some x => simp [orElseStr, h]

theorem onMessage_host_login (s : ServerState) (ws : Nat) (env : Env)
    (fields : List (String × JVal))
    (htype : fields.lookup "type" = some (JVal.str "host-login")) :
    onMessage s ws env (some (JVal.obj fields)) =
      Except.ok
        (if (validatePassword s env (fields.lookup "password")).1 = true then
          ({ (validatePassword s env (fields.lookup "password")).2 with
              isHost := Function.update
                (validatePassword s env (fields.lookup "password")).2.isHost ws true },
            [{ target := ws, msg := OutMsg.loginSuccess "Login successful" }])
        else
          ((validatePassword s env (fields.lookup "password")).2,
            [{ target := ws, msg := OutMsg.loginError "Invalid or expired password" }])) := by
  simp [onMessage, handleParsed, prop, htype, strictEqStr]

theorem validatePassword_accepts_iff (s : ServerState) (env : Env)
    (candidate : Option JVal) :
    (validatePassword s env candidate).1 = true ↔
      (∃ c, candidate = some (JVal.str c) ∧ c ≠ "" ∧ c = s.currentPassword)
        ∧ ¬ env.now > s.passwordExpiry := by
  unfold validatePassword
  by_cases h1 : truthy candidate = true
  · by_cases h2 : strictEqStr candidate s.currentPassword = true
    · have h3 := (strictEqStr_iff _ _).1 h2
      have h4 : s.currentPassword ≠ "" := (truthy_str _).1 (h3 ▸ h1)
      by_cases h5 : env.now > s.passwordExpiry
      · simp [h1, h2, h5]
      · have h6 : ∃ c, candidate = some (JVal.str c) ∧ c ≠ "" ∧ c = s.currentPassword :=
          ⟨s.currentPassword, h3, h4, rfl⟩
        simp [h1, h2, h5, h6]
    · simp only [h1, h2]
      constructor
      · intro h
        simp at h
      · rintro ⟨⟨c, hc, _, hcs⟩, _⟩
        exact absurd ((strictEqStr_iff _ _).2 (hcs ▸ hc)) h2
  · simp only [h1]
    constructor
    · intro h
      simp at h
    · rintro ⟨⟨c, hc, hne, _⟩, _⟩
      exact absurd ((truthy_str c).2 hne) (hc ▸ h1)

theorem prop_eq_some_str (data : JVal) (key t : String)
    (h : prop data key = some (JVal.str t)) :
    ∃ fields, data = JVal.obj fields ∧ fields.lookup key = some (JVal.str t) := by
  cases data with
  | obj fields => exact ⟨fields, rfl, h⟩
  | null => simp [prop] at h
  | bool b => simp [prop] at h
  | num n => simp [prop] at h
  | str u => simp [prop] at h
  | arr items => simp [prop] at h

theorem validatePassword_frame (s : ServerState) (env : Env) (candidate : Option JVal) :
    (validatePassword s env candidate).2.isHost = s.isHost ∧
    (validatePassword s env candidate).2.clients = s.clients ∧
    (validatePassword s env candidate).2.readyState = s.readyState := by
  unfold validatePassword initializePassword
  split_ifs <;> exact ⟨rfl, rfl, rfl⟩

/-- A run of handleParsed that turns connection c from Audience into Host is a
set-host or an accepted host-login sent by c. -/
theorem handleParsed_becomes_host (s : ServerState) (ws : Nat) (env : Env) (data : JVal)
    (c : Nat) (hbefore : s.isHost c = false)
    (hafter : (handleParsed s ws env data).1.isHost c = true) :
    c = ws ∧
      (prop data "type" = some (JVal.str "set-host") ∨
        (prop data "type" = some (JVal.str "host-login") ∧
          (validatePassword s env (prop data "password")).1 = true)) := by
  have hfr := validatePassword_frame s env (prop data "password")
  unfold handleParsed at hafter
  by_cases h1 : strictEqStr (prop data "type") "host-login" = true
  · simp only [h1, if_true] at hafter
    by_cases hv : (validatePassword s env (prop data "password")).1 = true
    · simp only [hv, if_true] at hafter
      by_cases hc : c = ws
      · exact ⟨hc, Or.inr ⟨(strictEqStr_iff _ _).1 h1, hv⟩⟩
      · rw [Function.update_noteq hc, hfr.1, hbefore] at hafter
        exact absurd hafter (by simp)
    · simp only [hv] at hafter
      rw [if_neg (by simp), hfr.1, hbefore] at hafter
      exact absurd hafter (by simp)
  · simp only [h1] at hafter
    rw [if_neg (by simp)] at hafter
    by_cases h2 : strictEqStr (prop data "type") "request-password" = true
    · simp only [h2, if_true] at hafter
      rw [hbefore] at hafter
      exact absurd hafter (by simp)
    · simp only [h2] at hafter
      rw [if_neg (by simp)] at hafter
      by_cases h3 : strictEqStr (prop data "type") "host-logout" = true
      · simp only [h3, if_true] at hafter
        by_cases h4 : s.isHost ws = true
        · simp only [h4, if_true, generateNewPassword, initializePassword] at hafter
          by_cases hc : c = ws
          · subst hc
            rw [Function.update_same] at hafter
            exact absurd hafter (by simp)
          · rw [Function.update_noteq hc, hbefore] at hafter
            exact absurd hafter (by simp)
        · simp only [h4] at hafter
          rw [if_neg (by simp), hbefore] at hafter
          exact absurd hafter (by simp)
      · simp only [h3] at hafter
        rw [if_neg (by simp)] at hafter
        by_cases h4 : strictEqStr (prop data "type") "set-host" = true
        · simp only [h4, if_true] at hafter
          by_cases hc : c = ws
          · exact ⟨hc, Or.inl ((strictEqStr_iff _ _).1 h4)⟩
          · rw [Function.update_noteq hc, hbefore] at hafter
            exact absurd hafter (by simp)
        · simp only [h4] at hafter
          rw [if_neg (by simp), hbefore] at hafter
          exact absurd hafter (by simp)

/-- One event that turns connection c from Audience into Host is a message of
c: a set-host, or a host-login carrying the matching, unexpired secret. -/
theorem step_becomes_host (s s1 : ServerState) (env : Env) (e : Event) (out : List Send)
    (c : Nat) (hstep : step s env e = Except.ok (s1, out))
    (hbefore : s.isHost c = false) (hafter : s1.isHost c = true) :
    ∃ fields, e = Event.message c (some (JVal.obj fields)) ∧
      (fields.lookup "type" = some (JVal.str "set-host") ∨
        (fields.lookup "type" = some (JVal.str "host-login") ∧
          ∃ p, fields.lookup "password" = some (JVal.str p) ∧ p ≠ "" ∧
            p = s.currentPassword ∧ ¬ env.now > s.passwordExpiry)) := by
  cases e with
  | connect ws =>
    simp only [step, onConnection, Except.ok.injEq, Prod.mk.injEq] at hstep
    obtain ⟨hs, _⟩ := hstep
    subst hs
    by_cases hc : c = ws
    · subst hc
      simp at hafter
    · simp only [Function.update_noteq hc] at hafter
      rw [hbefore] at hafter
      exact absurd hafter (by simp)
  | close ws =>
    simp only [step, onClose, Except.ok.injEq, Prod.mk.injEq] at hstep
    obtain ⟨hs, _⟩ := hstep
    subst hs
    simp only at hafter
    rw [hbefore] at hafter
    exact absurd hafter (by simp)
  | message ws payload =>
    have main : ∀ data : JVal, data ≠ JVal.null →
        (handleParsed s ws env data) = (s1, out) →
        ∃ fields, Event.message ws (some data) = Event.message c (some (JVal.obj fields)) ∧
          (fields.lookup "type" = some (JVal.str "set-host") ∨
            (fields.lookup "type" = some (JVal.str "host-login") ∧
              ∃ p, fields.lookup "password" = some (JVal.str p) ∧ p ≠ "" ∧
                p = s.currentPassword ∧ ¬ env.now > s.passwordExpiry)) := by
      intro data _ hd
      have hafter2 : (handleParsed s ws env data).1.isHost c = true := by rw [hd]; exact hafter
      obtain ⟨hc, hcase⟩ := handleParsed_becomes_host s ws env data c hbefore hafter2
      subst hc
      rcases hcase with hset | ⟨hlogin, hv⟩
      · obtain ⟨fields, rfl, hf⟩ := prop_eq_some_str _ _ _ hset
        exact ⟨fields, rfl, Or.inl hf⟩
      · obtain ⟨fields, rfl, hf⟩ := prop_eq_some_str _ _ _ hlogin
        obtain ⟨⟨p, hp, hne, hpe⟩, hexp⟩ := (validatePassword_accepts_iff _ _ _).1 hv
        exact ⟨fields, rfl, Or.inr ⟨hf, p, hp, hne, hpe, hexp⟩⟩
    cases payload with
    | none =>
      simp only [step, onMessage, Except.ok.injEq, Prod.mk.injEq] at hstep
      obtain ⟨hs, _⟩ := hstep
      subst hs
      rw [hbefore] at hafter
      exact absurd hafter (by simp)
    | some data =>
      cases data with
      | null => simp [step, onMessage] at hstep
      | bool b =>
        simp only [step, onMessage, Except.ok.injEq] at hstep
        exact main _ (by simp) hstep
      | num n =>
        simp only [step, onMessage, Except.ok.injEq] at hstep
        exact main _ (by simp) hstep
      | str t =>
        simp only [step, onMessage, Except.ok.injEq] at hstep
        exact main _ (by simp) hstep
      | arr items =>
        simp only [step, onMessage, Except.ok.injEq] at hstep
        exact main _ (by simp) hstep
      | obj fields =>
        simp only [step, onMessage, Except.ok.injEq] at hstep
        exact main _ (by simp) hstep

theorem onMessage_host_color (s : ServerState) (ws : Nat) (env : Env)
    (fields : List (String × JVal))
    (htype : fields.lookup "type" = some (JVal.str "host-color")) :
    onMessage s ws env (some (JVal.obj fields)) =
      Except.ok (s,
        if truthy (fields.lookup "color") = true then
          (s.clients.filter (fun c => !s.isHost c && s.readyState c == OPEN)).map
            (fun c => Send.mk c (OutMsg.hostColor ((fields.lookup "color").getD JVal.null)
              (orElseStr (fields.lookup "mode") "static")))
        else []) := by
  by_cases h : truthy (fields.lookup "color") = true
  · simp [onMessage, handleParsed, prop, htype, h, strictEqStr, forEachSend_eq_map_filter]
  · simp [onMessage, handleParsed, prop, htype, h, strictEqStr]

theorem onMessage_host_effect (s : ServerState) (ws : Nat) (env : Env)
    (fields : List (String × JVal))
    (htype : fields.lookup "type" = some (JVal.str "host-effect")) :
    onMessage s ws env (some (JVal.obj fields)) =
      Except.ok (s,
        if truthy (fields.lookup "effect") = true ∧ truthy (fields.lookup "color") = true then
          (s.clients.filter (fun c => !s.isHost c && s.readyState c == OPEN)).map
            (fun c => Send.mk c (OutMsg.hostEffect ((fields.lookup "effect").getD JVal.null)
              ((fields.lookup "color").getD JVal.null)))
        else []) := by
  by_cases h : truthy (fields.lookup "effect") = true
  · by_cases h2 : truthy (fields.lookup "color") = true
    · simp [onMessage, handleParsed, prop, htype, h, h2, strictEqStr, forEachSend_eq_map_filter]
    · simp [onMessage, handleParsed, prop, htype, h, h2, strictEqStr]
  · simp [onMessage, handleParsed, prop, htype, h, strictEqStr]

theorem mem_audience_map (s : ServerState) (f : Nat → Send) (hf : ∀ c, (f c).target = c)
    (x : Send)
    (hx : x ∈ (s.clients.filter (fun c => !s.isHost c && s.readyState c == OPEN)).map f) :
    x.target ∈ s.clients ∧ s.isHost x.target = false ∧ s.readyState x.target = OPEN := by
  simp only [List.mem_map, List.mem_filter] at hx
  obtain ⟨c, ⟨hmem, hc⟩, rfl⟩ := hx
  simp only [Bool.and_eq_true, Bool.not_eq_true', beq_iff_eq] at hc
  rw [hf c]
  exact ⟨hmem, hc.1, hc.2⟩

theorem audience_map_covers (s : ServerState) (f : Nat → Send) (hf : ∀ c, (f c).target = c)
    (c : Nat) (hmem : c ∈ s.clients) (hrole : s.isHost c = false)
    (hopen : s.readyState c = OPEN) :
    ∃ x ∈ (s.clients.filter (fun c => !s.isHost c && s.readyState c == OPEN)).map f,
      x.target = c := by
  refine ⟨f c, ?_, hf c⟩
  simp only [List.mem_map, List.mem_filter]
  exact ⟨c, ⟨hmem, by simp [hrole, hopen]⟩, rfl⟩

theorem onMessage_host_logout (s : ServerState) (ws : Nat) (env : Env)
    (fields : List (String × JVal))
    (htype : fields.lookup "type" = some (JVal.str "host-logout")) :
    onMessage s ws env (some (JVal.obj fields)) =
      Except.ok
        (if s.isHost ws = true then
          ({ s with
              isHost := Function.update s.isHost ws false
              currentPassword := generateSecurePassword env.draws
              passwordExpiry := env.now + PASSWORD_DURATION },
            [{ target := ws, msg := OutMsg.logoutSuccess (generateSecurePassword env.draws) }])
        else (s, [])) := by
  by_cases h : s.isHost ws = true
  · simp [onMessage, handleParsed, prop, htype, h, strictEqStr, generateNewPassword,
      initializePassword]
  · simp [onMessage, handleParsed, prop, htype, h, strictEqStr]

theorem scenario_draws_secret : generateSecurePassword scenarioEnv.draws = "CoolWave482" := by
  decide

theorem validatePassword_mismatch (s : ServerState) (env : Env) (candidate : Option JVal)
    (h : candidate ≠ some (JVal.str s.currentPassword)) :
    validatePassword s env candidate = (false, s) := by
  have h2 : strictEqStr candidate s.currentPassword = false := by
    cases hs : strictEqStr candidate s.currentPassword with
    | false => rfl
    | true => exact absurd ((strictEqStr_iff _ _).1 hs) h
  simp [validatePassword, h2]

theorem validatePassword_expired_match (s : ServerState) (env : Env)
    (hne : s.currentPassword ≠ "") (hexp : env.now > s.passwordExpiry) :
    validatePassword s env (some (JVal.str s.currentPassword)) =
      (false, initializePassword s env) := by
  simp [validatePassword, truthy, strictEqStr, hne, hexp]

theorem validatePassword_falsy (s : ServerState) (env : Env) (candidate : Option JVal)
    (h : truthy candidate = false) :
    validatePassword s env candidate = (false, s) := by
  simp [validatePassword, h]

theorem validatePassword_unexpired (s : ServerState) (env : Env) (candidate : Option JVal)
    (h : ¬ env.now > s.passwordExpiry) :
    (validatePassword s env candidate).2 = s := by
  unfold validatePassword
  split_ifs <;> rfl

theorem broadcastParticipantCount_eq (s : ServerState) :
    broadcastParticipantCount s =
      (s.clients.filter (fun c => s.readyState c == OPEN)).map
        (fun c => Send.mk c
          (OutMsg.participantCount (s.clients.filter (fun c => !s.isHost c)).length)) := by
  simp [broadcastParticipantCount, forEachSend_eq_map_filter]

theorem handleParsed_no_count (s : ServerState) (ws : Nat) (env : Env) (data : JVal)
    (x : Send) (hx : x ∈ (handleParsed s ws env data).2) (n : Nat) :
    x.msg ≠ OutMsg.participantCount n := by
  unfold handleParsed at hx
  simp only [forEachSend_eq_map_filter] at hx
  split_ifs at hx <;> simp at hx <;> aesop

/-! ## Theorems -/

/-- C3: validatePassword returns true exactly when the candidate is a present,
non-empty string equal to the current secret and the time now is not greater
than the expiry; in every other case it returns false. -/
theorem validatePassword_true_iff (s : ServerState) (env : Env) (candidate : Option JVal) :
    ((validatePassword s env candidate).1 = true ↔
      (∃ c, candidate = some (JVal.str c) ∧ c ≠ "" ∧ c = s.currentPassword)
        ∧ ¬ env.now > s.passwordExpiry)
    ∧ ((validatePassword s env candidate).1 = false ↔
      ¬ ((∃ c, candidate = some (JVal.str c) ∧ c ≠ "" ∧ c = s.currentPassword)
        ∧ ¬ env.now > s.passwordExpiry)) := by
  have key := validatePassword_accepts_iff s env candidate
  refine ⟨key, ?_⟩
  rw [← key]
  cases (validatePassword s env candidate).1 <;> simp

/-- C1: a host-color message whose color is present and truthy (for a string:
non-empty) leaves the whole state, registry and password included, unchanged
and sends exactly one host-color message, carrying the received color and the
mode (the received mode when truthy, "static" otherwise), to each registered
connection that is not in Host role and is open, in registry order, and
nothing else; no target is in Host role. -/
theorem host_color_broadcast (s : ServerState) (ws : Nat) (env : Env)
    (fields : List (String × JVal)) (color : JVal)
    (htype : fields.lookup "type" = some (JVal.str "host-color"))
    (hcolor : fields.lookup "color" = some color)
    (htruthy : truthy (some color) = true) :
    ∃ mode out,
      (∀ m, fields.lookup "mode" = some m → truthy (some m) = true → mode = m) ∧
      (truthy (fields.lookup "mode") = false → mode = JVal.str "static") ∧
      onMessage s ws env (some (JVal.obj fields)) = Except.ok (s, out) ∧
      out = (s.clients.filter (fun c => !s.isHost c && s.readyState c == OPEN)).map
        (fun c => { target := c, msg := OutMsg.hostColor color mode }) ∧
      (∀ x ∈ out, s.isHost x.target = false) := by
  refine ⟨orElseStr (fields.lookup "mode") "static", _, ?_, ?_, ?_, rfl, ?_⟩
  · intro m hm ht
    rw [hm]
    exact orElseStr_truthy m _ ht
  · intro hf
    exact orElseStr_falsy _ _ hf
  · simp [onMessage, handleParsed, prop, htype, hcolor, htruthy, strictEqStr,
      forEachSend_eq_map_filter]
  · intro x hx
    simp only [List.mem_map, List.mem_filter] at hx
    obtain ⟨c, ⟨_, hc⟩, rfl⟩ := hx
    simp only [Bool.and_eq_true, Bool.not_eq_true'] at hc
    exact hc.1

/-- Scenario D: with connection 0 as Host and the open Audience connections 1
and 2, the host-color message of the host reaches connections 1 and 2 only. -/
theorem host_color_broadcast_witness :
    colorFields.lookup "type" = some (JVal.str "host-color") ∧
    colorFields.lookup "color" = some (JVal.str "#ff0080") ∧
    truthy (some (JVal.str "#ff0080")) = true ∧
    onMessage scenarioState 0 scenarioEnv (some (JVal.obj colorFields)) =
      Except.ok (scenarioState,
        [{ target := 1, msg := OutMsg.hostColor (JVal.str "#ff0080") (JVal.str "static") },
         { target := 2, msg := OutMsg.hostColor (JVal.str "#ff0080") (JVal.str "static") }]) := by
  have h1 : colorFields.lookup "type" = some (JVal.str "host-color") := by
    simp [colorFields, List.lookup]
  have h2 : colorFields.lookup "color" = some (JVal.str "#ff0080") := by
    simp [colorFields, List.lookup]
  have h3 : truthy (some (JVal.str "#ff0080")) = true := by simp [truthy]
  obtain ⟨mode, out, hm, _, hrun, hout, _⟩ :=
    host_color_broadcast scenarioState 0 scenarioEnv colorFields (JVal.str "#ff0080") h1 h2 h3
  have hmode : mode = JVal.str "static" :=
    hm (JVal.str "static") (by simp [colorFields, List.lookup]) (by simp [truthy])
  refine ⟨h1, h2, h3, ?_⟩
  rw [hrun, hout, hmode]
  simp [scenarioState, OPEN]

/-- C2: a host-login message makes the handler send exactly one message, to
the sender. When validatePassword accepts the carried password the sender
becomes Host and the reply is login-success; otherwise the reply is
login-error with the message "Invalid or expired password" and the role of
the sender is unchanged. The role of every other connection and the registry
are unchanged in both cases. -/
theorem host_login_reply (s : ServerState) (ws : Nat) (env : Env)
    (fields : List (String × JVal))
    (htype : fields.lookup "type" = some (JVal.str "host-login")) :
    ∃ s1 out,
      onMessage s ws env (some (JVal.obj fields)) = Except.ok (s1, out) ∧
      ((validatePassword s env (fields.lookup "password")).1 = true →
        s1.isHost ws = true ∧
        out = [{ target := ws, msg := OutMsg.loginSuccess "Login successful" }]) ∧
      ((validatePassword s env (fields.lookup "password")).1 = false →
        s1.isHost ws = s.isHost ws ∧
        out = [{ target := ws, msg := OutMsg.loginError "Invalid or expired password" }]) ∧
      (∀ c, c ≠ ws → s1.isHost c = s.isHost c) ∧
      s1.clients = s.clients := by
  have hframe : (validatePassword s env (fields.lookup "password")).2.isHost = s.isHost ∧
      (validatePassword s env (fields.lookup "password")).2.clients = s.clients := by
    unfold validatePassword initializePassword
    split_ifs <;> exact ⟨rfl, rfl⟩
  have hrun := onMessage_host_login s ws env fields htype
  cases hv : (validatePassword s env (fields.lookup "password")).1 with
  | true =>
    rw [hv] at hrun
    refine ⟨_, _, hrun, ?_, ?_, ?_, ?_⟩
    · intro _
      exact ⟨by simp, rfl⟩
    · intro h
      exact absurd h (by simp)
    · intro c hc
      simp [Function.update_noteq hc, hframe.1]
    · exact hframe.2
  | false =>
    rw [hv] at hrun
    refine ⟨_, _, hrun, ?_, ?_, ?_, ?_⟩
    · intro h
      exact absurd h (by simp)
    · intro _
      exact ⟨by simp [hframe.1], rfl⟩
    · intro c _
      simp [hframe.1]
    · simpa using hframe.2

/-- Scenario C: the Audience connection 1 logs in with the password "wrong"
and receives the login-error; the state is unchanged. -/
theorem host_login_reply_witness :
    wrongLoginFields.lookup "type" = some (JVal.str "host-login") ∧
    scenarioState.isHost 1 = false ∧
    ∃ s1,
      onMessage scenarioState 1 scenarioEnv (some (JVal.obj wrongLoginFields)) =
        Except.ok (s1,
          [{ target := 1, msg := OutMsg.loginError "Invalid or expired password" }]) ∧
      s1.isHost 1 = false := by
  have h1 : wrongLoginFields.lookup "type" = some (JVal.str "host-login") := by
    simp [wrongLoginFields, List.lookup]
  have hv : (validatePassword scenarioState scenarioEnv
      (wrongLoginFields.lookup "password")).1 = false := by
    simp [wrongLoginFields, List.lookup, validatePassword, scenarioState, strictEqStr, truthy]
  obtain ⟨s1, out, hrun, _, hfail, _, _⟩ :=
    host_login_reply scenarioState 1 scenarioEnv wrongLoginFields h1
  obtain ⟨hrole, hout⟩ := hfail hv
  refine ⟨h1, by simp [scenarioState], s1, ?_, ?_⟩
  · rw [hrun, hout]
  · rw [hrole]
    simp [scenarioState]

/-- C4 (as stated, refuted): in the scenario state the Audience connection 1
sends the legacy set-host message, which is not a host-login and carries no
password, and is in Host role afterwards. -/
theorem set_host_grants_host_counterexample :
    scenarioState.isHost 1 = false ∧
    setHostFields.lookup "type" ≠ some (JVal.str "host-login") ∧
    setHostFields.lookup "password" = none ∧
    ∃ s1,
      step scenarioState scenarioEnv (Event.message 1 (some (JVal.obj setHostFields))) =
        Except.ok (s1, []) ∧
      s1.isHost 1 = true := by
  refine ⟨by simp [scenarioState], by simp [setHostFields, List.lookup],
    by simp [setHostFields, List.lookup],
    { scenarioState with isHost := Function.update scenarioState.isHost 1 true }, ?_, by simp⟩
  simp [step, onMessage, handleParsed, prop, setHostFields, List.lookup, strictEqStr]

/-- C4 (amended): along every run of events from every state, a connection
that is Audience at the start and Host at the end was made Host by a message
it sent itself, processed in a state where it was still Audience: either a
legacy set-host message, or a host-login message carrying the secret that is
current and unexpired at that moment. No connect, close or other message
makes a connection Host. -/
theorem host_role_only_by_login_or_set_host (s s1 : ServerState)
    (evs : List (Env × Event)) (c : Nat)
    (hrun : run s evs = Except.ok s1)
    (hbefore : s.isHost c = false) (hafter : s1.isHost c = true) :
    ∃ pre env fields post sm,
      evs = pre ++ (env, Event.message c (some (JVal.obj fields))) :: post ∧
      run s pre = Except.ok sm ∧ sm.isHost c = false ∧
      (fields.lookup "type" = some (JVal.str "set-host") ∨
        (fields.lookup "type" = some (JVal.str "host-login") ∧
          ∃ p, fields.lookup "password" = some (JVal.str p) ∧ p ≠ "" ∧
            p = sm.currentPassword ∧ ¬ env.now > sm.passwordExpiry)) := by
  induction evs generalizing s with
  | nil =>
    simp only [run, Except.ok.injEq] at hrun
    subst hrun
    rw [hbefore] at hafter
    exact absurd hafter (by simp)
  | cons ev rest ih =>
    obtain ⟨env, e⟩ := ev
    cases hstep : step s env e with
    | error err => simp [run, hstep] at hrun
    | ok r =>
      obtain ⟨s2, out⟩ := r
      simp only [run, hstep] at hrun
      by_cases h2 : s2.isHost c = true
      · obtain ⟨fields, he, hcase⟩ := step_becomes_host s s2 env e out c hstep hbefore h2
        subst he
        exact ⟨[], env, fields, rest, s, rfl, rfl, hbefore, hcase⟩
      · have h2f : s2.isHost c = false := by simpa using h2
        obtain ⟨pre, env1, fields, post, sm, hevs, hpre, hsm, hcase⟩ := ih s2 hrun h2f
        refine ⟨(env, e) :: pre, env1, fields, post, sm, ?_, ?_, hsm, hcase⟩
        · rw [hevs]
          rfl
        · simp only [run, hstep]
          exact hpre

/-- A run in which connection 3 connects and the Audience connection 1 then
sends set-host: the event found is that set-host message. -/
theorem host_role_only_by_login_or_set_host_witness :
    ∃ s1,
      run scenarioState
        [(scenarioEnv, Event.connect 3),
         (scenarioEnv, Event.message 1 (some (JVal.obj setHostFields)))] = Except.ok s1 ∧
      scenarioState.isHost 1 = false ∧ s1.isHost 1 = true ∧
      ∃ pre env fields post sm,
        [(scenarioEnv, Event.connect 3),
         (scenarioEnv, Event.message 1 (some (JVal.obj setHostFields)))] =
          pre ++ (env, Event.message 1 (some (JVal.obj fields))) :: post ∧
        run scenarioState pre = Except.ok sm ∧ sm.isHost 1 = false ∧
        (fields.lookup "type" = some (JVal.str "set-host") ∨
          (fields.lookup "type" = some (JVal.str "host-login") ∧
            ∃ p, fields.lookup "password" = some (JVal.str p) ∧ p ≠ "" ∧
              p = sm.currentPassword ∧ ¬ env.now > sm.passwordExpiry)) := by
  have hrun : run scenarioState
      [(scenarioEnv, Event.connect 3),
       (scenarioEnv, Event.message 1 (some (JVal.obj setHostFields)))] =
      Except.ok { (onConnection scenarioState 3).1 with
        isHost := Function.update (onConnection scenarioState 3).1.isHost 1 true } := by
    simp [run, step, onMessage, handleParsed, prop, setHostFields, List.lookup, strictEqStr]
  have hb : scenarioState.isHost 1 = false := by simp [scenarioState]
  refine ⟨_, hrun, hb, by simp, ?_⟩
  exact host_role_only_by_login_or_set_host scenarioState _ _ 1 hrun hb (by simp)

/-- C5 (as stated, refuted): in the scenario state the Audience connection 1
sends a host-color message and the message is delivered to the Audience
connections 1 and 2. -/
theorem audience_sender_broadcasts_counterexample :
    scenarioState.isHost 1 = false ∧
    onMessage scenarioState 1 scenarioEnv (some (JVal.obj colorFields)) =
      Except.ok (scenarioState,
        [{ target := 1, msg := OutMsg.hostColor (JVal.str "#ff0080") (JVal.str "static") },
         { target := 2, msg := OutMsg.hostColor (JVal.str "#ff0080") (JVal.str "static") }]) := by
  refine ⟨by simp [scenarioState], ?_⟩
  rw [onMessage_host_color _ _ _ _ (by simp [colorFields, List.lookup])]
  simp [colorFields, List.lookup, truthy, orElseStr, scenarioState, OPEN]

/-- C5 (amended): the sender's role does not gate broadcasting. For every state
and every host-color or host-effect message the handler leaves the state
unchanged and sends the same messages whoever the sender is, Audience or Host;
every target is a registered, open connection that is not in Host role; and
when the fields the branch tests are truthy (color for host-color, effect and
color for host-effect) every registered open non-Host connection is a target. -/
theorem broadcast_ignores_sender_role (s : ServerState) (ws : Nat) (env : Env)
    (fields : List (String × JVal))
    (htype : fields.lookup "type" = some (JVal.str "host-color") ∨
      fields.lookup "type" = some (JVal.str "host-effect")) :
    ∃ out,
      onMessage s ws env (some (JVal.obj fields)) = Except.ok (s, out) ∧
      (∀ ws2, onMessage s ws2 env (some (JVal.obj fields)) = Except.ok (s, out)) ∧
      (∀ x ∈ out, x.target ∈ s.clients ∧ s.isHost x.target = false ∧
        s.readyState x.target = OPEN) ∧
      (((fields.lookup "type" = some (JVal.str "host-color") ∧
            truthy (fields.lookup "color") = true) ∨
          (fields.lookup "type" = some (JVal.str "host-effect") ∧
            truthy (fields.lookup "effect") = true ∧ truthy (fields.lookup "color") = true)) →
        ∀ c ∈ s.clients, s.isHost c = false → s.readyState c = OPEN →
          ∃ x ∈ out, x.target = c) := by
  rcases htype with hcol | heff
  · refine ⟨_, onMessage_host_color s ws env fields hcol,
      fun ws2 => onMessage_host_color s ws2 env fields hcol, ?_, ?_⟩
    · intro x hx
      split_ifs at hx with h
      · exact mem_audience_map s _ (fun _ => rfl) x hx
      · simp at hx
    · rintro (⟨_, h⟩ | ⟨h, _⟩) c hmem hrole hopen
      · rw [if_pos h]
        exact audience_map_covers s _ (fun _ => rfl) c hmem hrole hopen
      · rw [hcol] at h
        simp at h
  · refine ⟨_, onMessage_host_effect s ws env fields heff,
      fun ws2 => onMessage_host_effect s ws2 env fields heff, ?_, ?_⟩
    · intro x hx
      split_ifs at hx with h
      · exact mem_audience_map s _ (fun _ => rfl) x hx
      · simp at hx
    · rintro (⟨h, _⟩ | ⟨_, h⟩) c hmem hrole hopen
      · rw [heff] at h
        simp at h
      · rw [if_pos h]
        exact audience_map_covers s _ (fun _ => rfl) c hmem hrole hopen

/-- The Audience connection 2 sends a host-effect message in the scenario
state: the Audience connections 1 and 2 receive it. -/
theorem broadcast_ignores_sender_role_witness :
    (effectFields.lookup "type" = some (JVal.str "host-color") ∨
      effectFields.lookup "type" = some (JVal.str "host-effect")) ∧
    scenarioState.isHost 2 = false ∧
    ∃ out,
      onMessage scenarioState 2 scenarioEnv (some (JVal.obj effectFields)) =
        Except.ok (scenarioState, out) ∧
      (∃ x ∈ out, x.target = 1) ∧ (∃ x ∈ out, x.target = 2) := by
  have ht : effectFields.lookup "type" = some (JVal.str "host-color") ∨
      effectFields.lookup "type" = some (JVal.str "host-effect") :=
    Or.inr (by simp [effectFields, List.lookup])
  obtain ⟨out, hrun, _, _, hcover⟩ :=
    broadcast_ignores_sender_role scenarioState 2 scenarioEnv effectFields ht
  have hfields : (effectFields.lookup "type" = some (JVal.str "host-color") ∧
        truthy (effectFields.lookup "color") = true) ∨
      (effectFields.lookup "type" = some (JVal.str "host-effect") ∧
        truthy (effectFields.lookup "effect") = true ∧
        truthy (effectFields.lookup "color") = true) :=
    Or.inr (by simp [effectFields, List.lookup, truthy])
  refine ⟨ht, by simp [scenarioState], out, hrun, ?_, ?_⟩
  · exact hcover hfields 1 (by simp [scenarioState]) (by simp [scenarioState])
      (by simp [scenarioState])
  · exact hcover hfields 2 (by simp [scenarioState]) (by simp [scenarioState])
      (by simp [scenarioState])

/-- C6: a host-logout message from a sender in Host role makes the sender
Audience, replaces the secret by the freshly generated one with expiry
now + 24 h (86400000 ms), and sends exactly one message, logout-success to the
sender, whose newPassword is the secret of the resulting state. From a sender
that is not Host nothing is sent and the state (roles, secret, expiry) is
unchanged. The roles of all other connections and the registry are unchanged
in both cases. -/
theorem host_logout_effect (s : ServerState) (ws : Nat) (env : Env)
    (fields : List (String × JVal))
    (htype : fields.lookup "type" = some (JVal.str "host-logout")) :
    ∃ s1 out,
      onMessage s ws env (some (JVal.obj fields)) = Except.ok (s1, out) ∧
      (s.isHost ws = true →
        s1.isHost ws = false ∧
        s1.currentPassword = generateSecurePassword env.draws ∧
        s1.passwordExpiry = env.now + 86400000 ∧
        out = [{ target := ws, msg := OutMsg.logoutSuccess s1.currentPassword }]) ∧
      (s.isHost ws = false → out = [] ∧ s1 = s) ∧
      (∀ c, c ≠ ws → s1.isHost c = s.isHost c) ∧
      s1.clients = s.clients := by
  have hrun := onMessage_host_logout s ws env fields htype
  cases h : s.isHost ws with
  | true =>
    rw [h] at hrun
    refine ⟨_, _, hrun, ?_, ?_, ?_, ?_⟩
    · intro _
      exact ⟨by simp, by simp, by simp [PASSWORD_DURATION], by simp⟩
    · intro hf
      exact absurd hf (by simp)
    · intro c hc
      simp [Function.update_noteq hc]
    · simp
  | false =>
    rw [h] at hrun
    refine ⟨_, _, hrun, ?_, ?_, ?_, ?_⟩
    · intro hf
      exact absurd hf (by simp)
    · intro _
      exact ⟨by simp, by simp⟩
    · intro c _
      simp
    · simp

/-- The Host connection 0 of the scenario state logs out at time 5000 with the
draws of CoolWave482. -/
theorem host_logout_effect_witness :
    logoutFields.lookup "type" = some (JVal.str "host-logout") ∧
    scenarioState.isHost 0 = true ∧
    ∃ s1,
      onMessage scenarioState 0 scenarioEnv (some (JVal.obj logoutFields)) =
        Except.ok (s1, [{ target := 0, msg := OutMsg.logoutSuccess "CoolWave482" }]) ∧
      s1.isHost 0 = false ∧ s1.currentPassword = "CoolWave482" ∧
      s1.passwordExpiry = 86405000 := by
  have ht : logoutFields.lookup "type" = some (JVal.str "host-logout") := by
    simp [logoutFields, List.lookup]
  have hh : scenarioState.isHost 0 = true := by simp [scenarioState]
  obtain ⟨s1, out, hrun, hhost, _, _, _⟩ :=
    host_logout_effect scenarioState 0 scenarioEnv logoutFields ht
  obtain ⟨hrole, hpw, hexp, hout⟩ := hhost hh
  rw [scenario_draws_secret] at hpw
  refine ⟨ht, hh, s1, ?_, hrole, hpw, ?_⟩
  · rw [hrun, hout, hpw]
  · rw [hexp]
    simp [scenarioEnv]

/-- C7 (as stated, refuted): the Host connection 0 logs out of a state whose
secret is CoolWave482 and the draws generate CoolWave482 again. The new secret
equals the previous one, validatePassword accepts the previous secret at the
later time 6000, and a host-login with it succeeds. -/
theorem rotate_repeats_secret_counterexample :
    (generateNewPassword repeatState scenarioEnv).1 = repeatState.currentPassword ∧
    (validatePassword (generateNewPassword repeatState scenarioEnv).2 laterEnv
      (some (JVal.str repeatState.currentPassword))).1 = true ∧
    ∃ s1 s2,
      onMessage repeatState 0 scenarioEnv (some (JVal.obj logoutFields)) =
        Except.ok (s1, [{ target := 0, msg := OutMsg.logoutSuccess "CoolWave482" }]) ∧
      onMessage s1 0 laterEnv (some (JVal.obj repeatLoginFields)) =
        Except.ok (s2, [{ target := 0, msg := OutMsg.loginSuccess "Login successful" }]) := by
  have hgen : (generateNewPassword repeatState scenarioEnv).1 = "CoolWave482" :=
    scenario_draws_secret
  have hval : (validatePassword (generateNewPassword repeatState scenarioEnv).2 laterEnv
      (some (JVal.str "CoolWave482"))).1 = true := by
    rw [validatePassword_accepts_iff]
    refine ⟨⟨"CoolWave482", rfl, by decide, ?_⟩, ?_⟩
    · exact scenario_draws_secret.symm
    · simp [generateNewPassword, initializePassword, laterEnv, scenarioEnv, PASSWORD_DURATION]
  have hlo := onMessage_host_logout repeatState 0 scenarioEnv logoutFields
    (by simp [logoutFields, List.lookup])
  rw [if_pos (by simp [repeatState, scenarioState]), scenario_draws_secret] at hlo
  have hli := onMessage_host_login
    { repeatState with
      isHost := Function.update repeatState.isHost 0 false
      currentPassword := "CoolWave482"
      passwordExpiry := scenarioEnv.now + PASSWORD_DURATION } 0 laterEnv repeatLoginFields
    (by simp [repeatLoginFields, List.lookup])
  rw [if_pos] at hli
  · exact ⟨hgen, hval, _, _, hlo, hli⟩
  · rw [validatePassword_accepts_iff]
    refine ⟨⟨"CoolWave482", by simp [repeatLoginFields, List.lookup], by decide, rfl⟩, ?_⟩
    simp [laterEnv, scenarioEnv, PASSWORD_DURATION]

/-- C7 (amended): rotate makes the generated string the secret. For every
outcome of the draws for which the new secret differs from the previous one,
the previous secret is rejected for as long as the new secret stays current:
in every state whose secret is the new one and at every time,
validatePassword on the previous secret returns false and leaves the state
unchanged, and a host-login carrying the previous secret is answered with
login-error and changes nothing. -/
theorem rotate_rejects_previous_secret (s : ServerState) (env : Env)
    (hne : generateSecurePassword env.draws ≠ s.currentPassword) :
    (generateNewPassword s env).1 = generateSecurePassword env.draws ∧
    (generateNewPassword s env).2.currentPassword = (generateNewPassword s env).1 ∧
    (generateNewPassword s env).1 ≠ s.currentPassword ∧
    ∀ (s2 : ServerState) (env2 : Env),
      s2.currentPassword = (generateNewPassword s env).1 →
      validatePassword s2 env2 (some (JVal.str s.currentPassword)) = (false, s2) ∧
      ∀ (ws : Nat) (fields : List (String × JVal)),
        fields.lookup "type" = some (JVal.str "host-login") →
        fields.lookup "password" = some (JVal.str s.currentPassword) →
        onMessage s2 ws env2 (some (JVal.obj fields)) =
          Except.ok (s2,
            [{ target := ws, msg := OutMsg.loginError "Invalid or expired password" }]) := by
  refine ⟨rfl, rfl, hne, ?_⟩
  intro s2 env2 hs2
  have hmis : validatePassword s2 env2 (some (JVal.str s.currentPassword)) = (false, s2) := by
    apply validatePassword_mismatch
    intro h
    simp only [Option.some.injEq, JVal.str.injEq] at h
    rw [hs2] at h
    exact hne h.symm
  refine ⟨hmis, ?_⟩
  intro ws fields ht hp
  rw [onMessage_host_login _ _ _ _ ht, hp, hmis]
  simp

/-- The Host connection 0 of the scenario state (secret HappyParty100) logs
out with the draws of CoolWave482; HappyParty100 is rejected afterwards. -/
theorem rotate_rejects_previous_secret_witness :
    generateSecurePassword scenarioEnv.draws ≠ scenarioState.currentPassword ∧
    (generateNewPassword scenarioState scenarioEnv).1 = "CoolWave482" ∧
    validatePassword (generateNewPassword scenarioState scenarioEnv).2 laterEnv
        (some (JVal.str "HappyParty100")) =
      (false, (generateNewPassword scenarioState scenarioEnv).2) := by
  have hne : generateSecurePassword scenarioEnv.draws ≠ scenarioState.currentPassword := by
    decide
  obtain ⟨hgen, hcur, _, hlater⟩ :=
    rotate_rejects_previous_secret scenarioState scenarioEnv hne
  refine ⟨hne, hgen.trans scenario_draws_secret, ?_⟩
  exact (hlater (generateNewPassword scenarioState scenarioEnv).2 laterEnv hcur).1

/-- C8 (as stated, refuted): the secret HappyParty100 expired at time 1000; at
time 5000 a login attempt with the candidate "wrong" is rejected and the
secret and expiry stay as they were, although the draws would have generated
CoolWave482. -/
theorem expired_wrong_candidate_no_rotation_counterexample :
    scenarioEnv.now > expiredState.passwordExpiry ∧
    validatePassword expiredState scenarioEnv (some (JVal.str "wrong")) =
      (false, expiredState) ∧
    expiredState.currentPassword ≠ generateSecurePassword scenarioEnv.draws ∧
    expiredState.passwordExpiry ≠ scenarioEnv.now + PASSWORD_DURATION := by
  refine ⟨by decide, ?_, by decide, by decide⟩
  apply validatePassword_mismatch
  simp [expiredState, scenarioState]

/-- C8 (amended): when now is greater than the expiry, validatePassword
returns false whatever the candidate. It regenerates the secret (initialize,
expiry = now + 24 h) exactly for a candidate that is non-empty and equal to
the current secret, and the host-login carrying it is answered with
login-error in the rotated state. For every other candidate (wrong, empty or
absent) it leaves the secret and the expiry unchanged. -/
theorem validatePassword_expired (s : ServerState) (env : Env)
    (hexp : env.now > s.passwordExpiry) :
    (∀ candidate, (validatePassword s env candidate).1 = false) ∧
    (s.currentPassword ≠ "" →
      (validatePassword s env (some (JVal.str s.currentPassword))).2 = initializePassword s env ∧
      (initializePassword s env).currentPassword = generateSecurePassword env.draws ∧
      (initializePassword s env).passwordExpiry = env.now + 86400000 ∧
      ∀ (ws : Nat) (fields : List (String × JVal)),
        fields.lookup "type" = some (JVal.str "host-login") →
        fields.lookup "password" = some (JVal.str s.currentPassword) →
        onMessage s ws env (some (JVal.obj fields)) =
          Except.ok (initializePassword s env,
            [{ target := ws, msg := OutMsg.loginError "Invalid or expired password" }])) ∧
    (∀ candidate, (truthy candidate = false ∨ candidate ≠ some (JVal.str s.currentPassword)) →
      (validatePassword s env candidate).2 = s) := by
  refine ⟨?_, ?_, ?_⟩
  · intro candidate
    cases h : (validatePassword s env candidate).1 with
    | false => rfl
    | true => exact absurd hexp ((validatePassword_accepts_iff s env candidate).1 h).2
  · intro hne
    have hm := validatePassword_expired_match s env hne hexp
    refine ⟨by rw [hm], rfl, by simp [initializePassword, PASSWORD_DURATION], ?_⟩
    intro ws fields ht hp
    rw [onMessage_host_login _ _ _ _ ht, hp, hm]
    simp
  · rintro candidate (h | h)
    · rw [validatePassword_falsy s env candidate h]
    · rw [validatePassword_mismatch s env candidate h]

/-- The expired scenario state at time 5000: the matching candidate
HappyParty100 is rejected and the secret becomes CoolWave482, expiring at
86405000. -/
theorem validatePassword_expired_witness :
    scenarioEnv.now > expiredState.passwordExpiry ∧
    (validatePassword expiredState scenarioEnv (some (JVal.str "HappyParty100"))).1 = false ∧
    (validatePassword expiredState scenarioEnv
      (some (JVal.str "HappyParty100"))).2.currentPassword = "CoolWave482" ∧
    (validatePassword expiredState scenarioEnv
      (some (JVal.str "HappyParty100"))).2.passwordExpiry = 86405000 := by
  have hexp : scenarioEnv.now > expiredState.passwordExpiry := by decide
  obtain ⟨hfalse, hrot, _⟩ := validatePassword_expired expiredState scenarioEnv hexp
  obtain ⟨hst, hpw, hex, _⟩ := hrot (by decide)
  refine ⟨hexp, hfalse _, ?_, ?_⟩
  · exact (congrArg ServerState.currentPassword hst).trans (hpw.trans scenario_draws_secret)
  · exact (congrArg ServerState.passwordExpiry hst).trans hex

/-- C9: while the secret is unexpired (now not greater than expiry)
validatePassword leaves the state, secret and expiry included, as it was for
every candidate; a candidate different from the secret returns false without
changing the state at any time; and repeated calls with the non-empty current
secret at unexpired times all return true and leave the state unchanged. -/
theorem validatePassword_frame_unexpired (s : ServerState) :
    (∀ (env : Env) (candidate : Option JVal), ¬ env.now > s.passwordExpiry →
      (validatePassword s env candidate).2 = s) ∧
    (∀ (env : Env) (candidate : Option JVal), candidate ≠ some (JVal.str s.currentPassword) →
      validatePassword s env candidate = (false, s)) ∧
    (∀ envs : List Env, s.currentPassword ≠ "" →
      (∀ env ∈ envs, ¬ env.now > s.passwordExpiry) →
      envs.foldl (fun st env =>
        (validatePassword st env (some (JVal.str s.currentPassword))).2) s = s ∧
      ∀ env ∈ envs,
        validatePassword s env (some (JVal.str s.currentPassword)) = (true, s)) := by
  refine ⟨fun env candidate h => validatePassword_unexpired s env candidate h,
    fun env candidate h => validatePassword_mismatch s env candidate h, ?_⟩
  intro envs hne hall
  constructor
  · induction envs with
    | nil => rfl
    | cons env rest ih =>
      simp only [List.foldl_cons]
      rw [validatePassword_unexpired s env _ (hall env (List.mem_cons_self _ _))]
      exact ih (fun e he => hall e (List.mem_cons_of_mem _ he))
  · intro env henv
    have h1 : (validatePassword s env (some (JVal.str s.currentPassword))).1 = true :=
      (validatePassword_accepts_iff s env _).2
        ⟨⟨s.currentPassword, rfl, hne, rfl⟩, hall env henv⟩
    have h2 := validatePassword_unexpired s env (some (JVal.str s.currentPassword))
      (hall env henv)
    exact Prod.ext h1 h2

/-- The scenario state, unexpired at the times 5000 and 6000: a wrong
candidate is rejected without a change, and two calls in a row with
HappyParty100 return true. -/
theorem validatePassword_frame_unexpired_witness :
    ¬ scenarioEnv.now > scenarioState.passwordExpiry ∧
    ¬ laterEnv.now > scenarioState.passwordExpiry ∧
    validatePassword scenarioState scenarioEnv (some (JVal.str "wrong")) =
      (false, scenarioState) ∧
    validatePassword scenarioState scenarioEnv (some (JVal.str "HappyParty100")) =
      (true, scenarioState) ∧
    validatePassword
      (validatePassword scenarioState scenarioEnv (some (JVal.str "HappyParty100"))).2
      laterEnv (some (JVal.str "HappyParty100")) = (true, scenarioState) := by
  have h1 : ¬ scenarioEnv.now > scenarioState.passwordExpiry := by decide
  have h2 : ¬ laterEnv.now > scenarioState.passwordExpiry := by decide
  obtain ⟨hfr, hwrong, hrep⟩ := validatePassword_frame_unexpired scenarioState
  have hall : ∀ env ∈ [scenarioEnv, laterEnv], ¬ env.now > scenarioState.passwordExpiry := by
    intro env henv
    simp only [List.mem_cons, List.mem_singleton, List.not_mem_nil, or_false] at henv
    rcases henv with rfl | rfl
    · exact h1
    · exact h2
  obtain ⟨_, htrue⟩ := hrep [scenarioEnv, laterEnv] (by decide) hall
  have ha := htrue scenarioEnv (by simp)
  have hb := htrue laterEnv (by simp)
  refine ⟨h1, h2, hwrong scenarioEnv _ (by simp [scenarioState]), ha, ?_⟩
  have hst := hfr scenarioEnv (some (JVal.str "HappyParty100")) h1
  rw [hst]
  exact hb

/-- No run of the message handler sends a participant-count message, whatever
the state, the sender and the payload. -/
theorem onMessage_sends_no_count (s : ServerState) (ws : Nat) (env : Env)
    (payload : Option JVal) (s1 : ServerState) (out : List Send)
    (hrun : onMessage s ws env payload = Except.ok (s1, out))
    (x : Send) (hx : x ∈ out) (n : Nat) :
    x.msg ≠ OutMsg.participantCount n := by
  have key : ∀ data : JVal, Except.ok (handleParsed s ws env data) =
      (Except.ok (s1, out) : Except JsError (ServerState × List Send)) →
      x.msg ≠ OutMsg.participantCount n := by
    intro data hd
    simp only [Except.ok.injEq] at hd
    exact handleParsed_no_count s ws env data x (by rw [hd]; exact hx) n
  cases payload with
  | none =>
    simp only [onMessage, Except.ok.injEq, Prod.mk.injEq] at hrun
    rw [← hrun.2] at hx
    simp at hx
  | some data =>
    cases data with
    | null => simp [onMessage] at hrun
    | bool b => exact key _ hrun
    | num k => exact key _ hrun
    | str t => exact key _ hrun
    | arr items => exact key _ hrun
    | obj fields => exact key _ hrun

/-- C10 (code defect): after initialization with the secret CoolWave482 the
first client, connection 0, connects and is sent participant-count with count
1. Its host-login with CoolWave482 at time 6000 makes it Host, so that no
registered connection is in Audience role, yet the only message sent is the
login-success: the count last published stays 1. The host-logout of that Host
and a set-host in the scenario state flip a role as well and send only the
logout-success, respectively nothing. -/
theorem role_flip_leaves_count_stale :
    (onConnection (initialState (fun _ => OPEN) scenarioEnv) 0).2 =
      [Send.mk 0 (OutMsg.participantCount 1)] ∧
    (onConnection (initialState (fun _ => OPEN) scenarioEnv) 0).1.isHost 0 = false ∧
    ∃ s1,
      onMessage (onConnection (initialState (fun _ => OPEN) scenarioEnv) 0).1 0 laterEnv
          (some (JVal.obj repeatLoginFields)) =
        Except.ok (s1, [Send.mk 0 (OutMsg.loginSuccess "Login successful")]) ∧
      s1.isHost 0 = true ∧ s1.clients = [0] ∧
      (s1.clients.filter (fun c => !s1.isHost c)).length = 0 ∧
      (∃ s2,
        onMessage s1 0 laterEnv (some (JVal.obj logoutFields)) =
          Except.ok (s2, [Send.mk 0 (OutMsg.logoutSuccess "HappyParty100")]) ∧
        s2.isHost 0 = false ∧
        (s2.clients.filter (fun c => !s2.isHost c)).length = 1) ∧
      scenarioState.isHost 2 = false ∧
      onMessage scenarioState 2 scenarioEnv (some (JVal.obj setHostFields)) =
        Except.ok ({ scenarioState with isHost := Function.update scenarioState.isHost 2 true },
          []) := by
  have hpw : (onConnection (initialState (fun _ => OPEN) scenarioEnv) 0).1.currentPassword =
      "CoolWave482" := scenario_draws_secret
  have hnow : ¬ laterEnv.now >
      (onConnection (initialState (fun _ => OPEN) scenarioEnv) 0).1.passwordExpiry := by
    simp [onConnection, initialState, initializePassword, laterEnv, scenarioEnv,
      PASSWORD_DURATION]
  have hv : (validatePassword (onConnection (initialState (fun _ => OPEN) scenarioEnv) 0).1
      laterEnv (List.lookup "password" repeatLoginFields)).1 = true := by
    rw [validatePassword_accepts_iff]
    exact ⟨⟨"CoolWave482", by simp [repeatLoginFields, List.lookup], by decide, hpw.symm⟩, hnow⟩
  have hst := validatePassword_unexpired
    (onConnection (initialState (fun _ => OPEN) scenarioEnv) 0).1 laterEnv
    (List.lookup "password" repeatLoginFields) hnow
  have hli := onMessage_host_login
    (onConnection (initialState (fun _ => OPEN) scenarioEnv) 0).1 0 laterEnv repeatLoginFields
    (by simp [repeatLoginFields, List.lookup])
  rw [if_pos hv, hst] at hli
  have hlo := onMessage_host_logout
    { (onConnection (initialState (fun _ => OPEN) scenarioEnv) 0).1 with
      isHost := Function.update
        (onConnection (initialState (fun _ => OPEN) scenarioEnv) 0).1.isHost 0 true }
    0 laterEnv logoutFields (by simp [logoutFields, List.lookup])
  rw [if_pos (by simp)] at hlo
  have hgen : generateSecurePassword laterEnv.draws = "HappyParty100" := by decide
  rw [hgen] at hlo
  refine ⟨?_, by simp [onConnection], _, hli, by simp, rfl, ?_, ⟨_, hlo, by simp, ?_⟩,
    by simp [scenarioState], ?_⟩
  · rw [onConnection, broadcastParticipantCount_eq]
    simp [initialState, initializePassword, OPEN, List.filter]
  · simp [onConnection, initialState, initializePassword, List.filter]
  · simp [onConnection, initialState, initializePassword, List.filter]
  · simp [onMessage, handleParsed, prop, setHostFields, List.lookup, strictEqStr]

/-- C14: a host-effect message leaves the whole state (registry, roles and
password state) unchanged. When effect and color are both present and truthy
(for strings: non-empty) the handler sends exactly one host-effect message,
carrying the received effect and color, to each registered connection that is
not in Host role and is open, in registry order, and nothing else; when
effect or color is absent or falsy it sends nothing. -/
theorem host_effect_broadcast (s : ServerState) (ws : Nat) (env : Env)
    (fields : List (String × JVal))
    (htype : fields.lookup "type" = some (JVal.str "host-effect")) :
    (∀ effect color, fields.lookup "effect" = some effect →
      fields.lookup "color" = some color →
      truthy (some effect) = true → truthy (some color) = true →
      onMessage s ws env (some (JVal.obj fields)) =
        Except.ok (s,
          (s.clients.filter (fun c => !s.isHost c && s.readyState c == OPEN)).map
            (fun c => Send.mk c (OutMsg.hostEffect effect color)))) ∧
    ((truthy (fields.lookup "effect") = false ∨ truthy (fields.lookup "color") = false) →
      onMessage s ws env (some (JVal.obj fields)) = Except.ok (s, [])) := by
  have hrun := onMessage_host_effect s ws env fields htype
  constructor
  · intro effect color he hc hte htc
    rw [hrun, he, hc, if_pos ⟨hte, htc⟩]
    rfl
  · intro h
    rw [hrun, if_neg]
    rintro ⟨h1, h2⟩
    rcases h with h | h
    · rw [h] at h1
      exact absurd h1 (by simp)
    · rw [h] at h2
      exact absurd h2 (by simp)

/-- The Host connection 0 of the scenario state sends a host-effect message:
the open Audience connections 1 and 2 receive it; without a color nothing is
sent. -/
theorem host_effect_broadcast_witness :
    effectFields.lookup "type" = some (JVal.str "host-effect") ∧
    effectNoColorFields.lookup "type" = some (JVal.str "host-effect") ∧
    onMessage scenarioState 0 scenarioEnv (some (JVal.obj effectFields)) =
      Except.ok (scenarioState,
        [Send.mk 1 (OutMsg.hostEffect (JVal.str "strobe") (JVal.str "#00ff00")),
         Send.mk 2 (OutMsg.hostEffect (JVal.str "strobe") (JVal.str "#00ff00"))]) ∧
    onMessage scenarioState 0 scenarioEnv (some (JVal.obj effectNoColorFields)) =
      Except.ok (scenarioState, []) := by
  have h1 : effectFields.lookup "type" = some (JVal.str "host-effect") := by
    simp [effectFields, List.lookup]
  have h2 : effectNoColorFields.lookup "type" = some (JVal.str "host-effect") := by
    simp [effectNoColorFields, List.lookup]
  refine ⟨h1, h2, ?_, ?_⟩
  · rw [(host_effect_broadcast scenarioState 0 scenarioEnv effectFields h1).1
      (JVal.str "strobe") (JVal.str "#00ff00") (by simp [effectFields, List.lookup])
      (by simp [effectFields, List.lookup]) (by simp [truthy]) (by simp [truthy])]
    simp [scenarioState, OPEN]
  · exact (host_effect_broadcast scenarioState 0 scenarioEnv effectNoColorFields h2).2
      (Or.inr (by simp [effectNoColorFields, List.lookup, truthy]))

theorem filter_append_singleton_length (l : List Nat) (ws : Nat) (f : Nat → Bool)
    (h : f ws = true) :
    ((l ++ [ws]).filter f).length = (l.filter f).length + 1 := by
  simp [List.filter_append, List.filter, h]

theorem filter_congr_mem (l : List Nat) (f g : Nat → Bool) (h : ∀ c ∈ l, f c = g c) :
    l.filter f = l.filter g := by
  induction l with
  | nil => rfl
  | cons c rest ih =>
    have hc := h c (List.mem_cons_self _ _)
    have hrest := ih (fun x hx => h x (List.mem_cons_of_mem _ hx))
    simp [List.filter, hc, hrest]

/-- C11: accepting the new connection ws appends it to the registry with role
Audience and leaves the password state, the order of the existing
connections and the role of every other connection unchanged (every existing
connection, as ws is new). The handler sends one participant-count message
per open registered connection, the new one and the hosts included, in
registry order and nothing else, each carrying the number of registered
connections not in Host role after the insertion; that number is one more
than the Audience count before, and 1 when the registry was empty. With a
duplicate-free registry no connection is sent two messages. -/
theorem connection_registers_audience (s : ServerState) (ws : Nat)
    (hnew : ws ∉ s.clients) :
    (onConnection s ws).1.clients = s.clients ++ [ws] ∧
    (onConnection s ws).1.isHost ws = false ∧
    (∀ c, c ≠ ws → (onConnection s ws).1.isHost c = s.isHost c) ∧
    (∀ c ∈ s.clients, (onConnection s ws).1.isHost c = s.isHost c) ∧
    (onConnection s ws).1.currentPassword = s.currentPassword ∧
    (onConnection s ws).1.passwordExpiry = s.passwordExpiry ∧
    (onConnection s ws).2 =
      ((s.clients ++ [ws]).filter (fun c => s.readyState c == OPEN)).map
        (fun c => Send.mk c (OutMsg.participantCount
          ((s.clients ++ [ws]).filter
            (fun c => !(onConnection s ws).1.isHost c)).length)) ∧
    ((s.clients ++ [ws]).filter (fun c => !(onConnection s ws).1.isHost c)).length =
      (s.clients.filter (fun c => !s.isHost c)).length + 1 ∧
    (s.clients = [] →
      ((s.clients ++ [ws]).filter (fun c => !(onConnection s ws).1.isHost c)).length = 1) ∧
    (s.clients.Nodup → ((onConnection s ws).2.map Send.target).Nodup) := by
  have hself : (onConnection s ws).1.isHost ws = false := by simp [onConnection]
  have hother : ∀ c, c ≠ ws → (onConnection s ws).1.isHost c = s.isHost c := by
    intro c hc
    simp [onConnection, Function.update_noteq hc]
  have hexist : ∀ c ∈ s.clients, (onConnection s ws).1.isHost c = s.isHost c := by
    intro c hc
    exact hother c (fun h => hnew (h ▸ hc))
  have hout : (onConnection s ws).2 =
      ((s.clients ++ [ws]).filter (fun c => s.readyState c == OPEN)).map
        (fun c => Send.mk c (OutMsg.participantCount
          ((s.clients ++ [ws]).filter
            (fun c => !(onConnection s ws).1.isHost c)).length)) := by
    simp only [onConnection]
    rw [broadcastParticipantCount_eq]
  have hcount : ((s.clients ++ [ws]).filter
      (fun c => !(onConnection s ws).1.isHost c)).length =
      (s.clients.filter (fun c => !s.isHost c)).length + 1 := by
    rw [filter_append_singleton_length _ _ _ (by simp [hself])]
    rw [filter_congr_mem s.clients (fun c => !(onConnection s ws).1.isHost c)
      (fun c => !s.isHost c) (fun c hc => by simp [hexist c hc])]
  refine ⟨rfl, hself, hother, hexist, rfl, rfl, hout, hcount, ?_, ?_⟩
  · intro hempty
    rw [hcount, hempty]
    rfl
  · intro hnd
    rw [hout, List.map_map]
    have hid : (Send.target ∘ fun c => Send.mk c (OutMsg.participantCount
        ((s.clients ++ [ws]).filter
          (fun c => !(onConnection s ws).1.isHost c)).length)) = id := rfl
    rw [hid, List.map_id]
    apply List.Nodup.filter
    rw [List.nodup_append]
    refine ⟨hnd, List.nodup_singleton ws, ?_⟩
    intro a ha hb
    rw [List.mem_singleton] at hb
    exact hnew (hb ▸ ha)

/-- Scenario A: the first client connects to the empty registry and is sent
participant-count with count 1; and connection 3 joining the scenario state
makes the count 3, sent to the Host 0 as well. -/
theorem connection_registers_audience_witness :
    (0 ∉ emptyState.clients) ∧
    (onConnection emptyState 0).1.clients = [0] ∧
    (onConnection emptyState 0).2 = [Send.mk 0 (OutMsg.participantCount 1)] ∧
    (3 ∉ scenarioState.clients) ∧
    (onConnection scenarioState 3).1.clients = [0, 1, 2, 3] ∧
    (onConnection scenarioState 3).1.isHost 3 = false := by
  have h0 : 0 ∉ emptyState.clients := by simp [emptyState]
  have h3 : 3 ∉ scenarioState.clients := by simp [scenarioState]
  obtain ⟨hc0, _, _, _, _, _, hout0, _, hone, _⟩ := connection_registers_audience emptyState 0 h0
  obtain ⟨hc3, hr3, _⟩ := connection_registers_audience scenarioState 3 h3
  refine ⟨h0, hc0, ?_, h3, hc3, hr3⟩
  rw [hout0, hone rfl]
  simp [emptyState]

theorem filter_ne_erase (l : List Nat) (ws : Nat) :
    (l.erase ws).filter (fun c => decide (c ≠ ws)) = l.filter (fun c => decide (c ≠ ws)) := by
  induction l with
  | nil => rfl
  | cons c rest ih =>
    by_cases h : c = ws
    · subst h
      simp [List.filter]
    · have hbeq : (c == ws) = false := by simpa using h
      rw [List.erase_cons, hbeq]
      simp only [Bool.false_eq_true, if_false, List.filter_cons, ih]

theorem filter_erase_length (l : List Nat) (ws : Nat) (f : Nat → Bool)
    (hmem : ws ∈ l) (hf : f ws = true) :
    ((l.erase ws).filter f).length + 1 = (l.filter f).length := by
  induction l with
  | nil => simp at hmem
  | cons c rest ih =>
    by_cases h : c = ws
    · subst h
      simp [List.filter, hf]
    · have hbeq : (c == ws) = false := by simpa using h
      have hrest : ws ∈ rest := by
        rcases List.mem_cons.1 hmem with h1 | h1
        · exact absurd h1.symm h
        · exact h1
      rw [List.erase_cons, hbeq]
      simp only [Bool.false_eq_true, if_false]
      by_cases hc : f c = true
      · simp only [List.filter, hc, List.length_cons]
        have := ih hrest
        omega
      · have hc2 : f c = false := by simpa using hc
        simp only [List.filter, hc2]
        exact ih hrest

/-- C12: closing connection ws removes it from the registry: its first entry
is erased, which changes nothing when ws is absent, and in a duplicate-free
registry ws is gone afterwards and a second close removes nothing further.
Roles and password state are unchanged and the other connections keep their
relative order. The handler sends one participant-count message to each
remaining open registered connection, in registry order and nothing else,
carrying the number of remaining connections not in Host role, which is one
less than before when ws was a registered Audience connection. -/
theorem close_unregisters (s : ServerState) (ws : Nat) :
    (onClose s ws).1.clients = s.clients.erase ws ∧
    (ws ∉ s.clients → (onClose s ws).1.clients = s.clients) ∧
    (s.clients.Nodup →
      ws ∉ (onClose s ws).1.clients ∧
      (onClose (onClose s ws).1 ws).1.clients = (onClose s ws).1.clients) ∧
    (onClose s ws).1.isHost = s.isHost ∧
    (onClose s ws).1.currentPassword = s.currentPassword ∧
    (onClose s ws).1.passwordExpiry = s.passwordExpiry ∧
    (onClose s ws).1.clients.filter (fun c => decide (c ≠ ws)) =
      s.clients.filter (fun c => decide (c ≠ ws)) ∧
    List.Sublist (onClose s ws).1.clients s.clients ∧
    (onClose s ws).2 =
      ((s.clients.erase ws).filter (fun c => s.readyState c == OPEN)).map
        (fun c => Send.mk c (OutMsg.participantCount
          ((s.clients.erase ws).filter (fun c => !s.isHost c)).length)) ∧
    (ws ∈ s.clients → s.isHost ws = false →
      ((s.clients.erase ws).filter (fun c => !s.isHost c)).length + 1 =
        (s.clients.filter (fun c => !s.isHost c)).length) := by
  refine ⟨rfl, ?_, ?_, rfl, rfl, rfl, filter_ne_erase s.clients ws,
    List.erase_sublist ws s.clients, ?_, ?_⟩
  · intro h
    exact List.erase_of_not_mem h
  · intro hnd
    have hgone : ws ∉ s.clients.erase ws := List.Nodup.not_mem_erase hnd
    exact ⟨hgone, List.erase_of_not_mem hgone⟩
  · simp only [onClose]
    rw [broadcastParticipantCount_eq]
  · intro hmem hrole
    exact filter_erase_length s.clients ws (fun c => !s.isHost c) hmem (by simp [hrole])

/-- Scenario F: the Audience connection 1 of the scenario state closes. The
registry becomes 0, 2 and the count 1 is sent to the Host 0 and the Audience
connection 2; the Audience count was 2 before. -/
theorem close_unregisters_witness :
    scenarioState.clients.Nodup ∧ 1 ∈ scenarioState.clients ∧
    scenarioState.isHost 1 = false ∧
    (scenarioState.clients.filter (fun c => !scenarioState.isHost c)).length = 2 ∧
    (onClose scenarioState 1).1.clients = [0, 2] ∧
    (onClose (onClose scenarioState 1).1 1).1.clients = [0, 2] ∧
    (onClose scenarioState 1).2 =
      [Send.mk 0 (OutMsg.participantCount 1), Send.mk 2 (OutMsg.participantCount 1)] := by
  have hnd : scenarioState.clients.Nodup := by simp [scenarioState]
  have hmem : 1 ∈ scenarioState.clients := by simp [scenarioState]
  have hrole : scenarioState.isHost 1 = false := by simp [scenarioState]
  obtain ⟨hcl, _, hdouble, _, _, _, _, _, hout, hcount⟩ := close_unregisters scenarioState 1
  have herase : scenarioState.clients.erase 1 = [0, 2] := by
    simp [scenarioState, List.erase_cons]
  have hbefore : (scenarioState.clients.filter (fun c => !scenarioState.isHost c)).length = 2 := by
    simp [scenarioState, List.filter]
  have hafter := hcount hmem hrole
  rw [hbefore] at hafter
  have hone : ((scenarioState.clients.erase 1).filter
      (fun c => !scenarioState.isHost c)).length = 1 := by omega
  refine ⟨hnd, hmem, hrole, hbefore, hcl.trans herase, ?_, ?_⟩
  · rw [(hdouble hnd).2, hcl, herase]
  · rw [hout, hone, herase]
    simp [scenarioState, OPEN]

/-! ### The format of a generated secret -/

theorem toDigitsCore_three (f n : Nat) (ds : List Char) (hlo : 100 ≤ n) (hhi : n ≤ 999) :
    Nat.toDigitsCore 10 (f + 3) n ds =
      Nat.digitChar (n / 100) :: Nat.digitChar (n / 10 % 10) :: Nat.digitChar (n % 10) :: ds := by
  have h1 : n / 10 ≠ 0 := by omega
  have h2 : n / 10 / 10 ≠ 0 := by omega
  have h3 : n / 10 / 10 / 10 = 0 := by omega
  have h4 : n / 10 / 10 % 10 = n / 100 := by omega
  have unfoldOnce : ∀ (g k : Nat) (l : List Char), Nat.toDigitsCore 10 (g + 1) k l =
      if k / 10 = 0 then Nat.digitChar (k % 10) :: l
      else Nat.toDigitsCore 10 g (k / 10) (Nat.digitChar (k % 10) :: l) := by
    intro g k l
    rfl
  rw [unfoldOnce, if_neg h1, unfoldOnce, if_neg h2, unfoldOnce, if_pos h3, h4]

theorem toString_three_digits (n : Nat) (hlo : 100 ≤ n) (hhi : n ≤ 999) :
    toString n = String.mk [Nat.digitChar (n / 100), Nat.digitChar (n / 10 % 10),
      Nat.digitChar (n % 10)] := by
  show Nat.repr n = _
  have hf : n + 1 = (n - 2) + 3 := by omega
  rw [Nat.repr, Nat.toDigits, hf, toDigitsCore_three _ _ _ hlo hhi]
  rfl

theorem adjective_draw_mem : ∀ i : Fin 10, adjectives.getD i.val "" ∈ adjectives := by
  decide

theorem noun_draw_mem : ∀ i : Fin 10, nouns.getD i.val "" ∈ nouns := by
  decide

theorem adjective_draw_onto : ∀ a ∈ adjectives, ∃ i : Fin 10, adjectives.getD i.val "" = a := by
  decide

theorem noun_draw_onto : ∀ b ∈ nouns, ∃ i : Fin 10, nouns.getD i.val "" = b := by
  decide

theorem generateSecurePassword_ne_empty (d : Draws) : generateSecurePassword d ≠ "" := by
  intro h
  have hlen := congrArg String.length h
  have hnum := toString_three_digits (d.numbers.val + 100) (by omega)
    (by have := d.numbers.isLt; omega)
  simp only [generateSecurePassword, String.length_append, hnum] at hlen
  have h3 : (String.mk [Nat.digitChar ((d.numbers.val + 100) / 100),
      Nat.digitChar ((d.numbers.val + 100) / 10 % 10),
      Nat.digitChar ((d.numbers.val + 100) % 10)]).length = 3 := rfl
  rw [h3] at hlen
  have h0 : ("" : String).length = 0 := rfl
  omega

/-- C16: there are 10 adjectives and 10 nouns. For every outcome of the three
draws generateSecurePassword returns an adjective of the list, a noun of the
list and the decimal rendering of a number n with 100 ≤ n ≤ 999, concatenated
without a separator. The rendering of such an n is exactly its three decimal
digits, the first of which is not 0. Every combination of an adjective, a
noun and such a number is returned for some draws, and the result is never
the empty string. -/
theorem generateSecurePassword_format :
    adjectives.length = 10 ∧ nouns.length = 10 ∧
    (∀ d : Draws, ∃ a ∈ adjectives, ∃ b ∈ nouns, ∃ n : Nat, 100 ≤ n ∧ n ≤ 999 ∧
      generateSecurePassword d = a ++ b ++ toString n) ∧
    (∀ n : Nat, 100 ≤ n → n ≤ 999 →
      toString n = String.mk [Nat.digitChar (n / 100), Nat.digitChar (n / 10 % 10),
        Nat.digitChar (n % 10)] ∧
      (toString n).length = 3 ∧ Nat.digitChar (n / 100) ≠ '0') ∧
    (∀ a ∈ adjectives, ∀ b ∈ nouns, ∀ n : Nat, 100 ≤ n → n ≤ 999 →
      ∃ d : Draws, generateSecurePassword d = a ++ b ++ toString n) ∧
    (∀ d : Draws, generateSecurePassword d ≠ "") := by
  refine ⟨rfl, rfl, ?_, ?_, ?_, generateSecurePassword_ne_empty⟩
  · intro d
    refine ⟨_, adjective_draw_mem d.adjective, _, noun_draw_mem d.noun,
      d.numbers.val + 100, by omega, ?_, rfl⟩
    have := d.numbers.isLt
    omega
  · intro n hlo hhi
    have hs := toString_three_digits n hlo hhi
    refine ⟨hs, by rw [hs]; rfl, ?_⟩
    have h1 : 1 ≤ n / 100 := by omega
    have h2 : n / 100 ≤ 9 := by omega
    generalize n / 100 = k at h1 h2
    interval_cases k <;> decide
  · intro a ha b hb n hlo hhi
    obtain ⟨i, hi⟩ := adjective_draw_onto a ha
    obtain ⟨j, hj⟩ := noun_draw_onto b hb
    refine ⟨{ numbers := ⟨n - 100, by omega⟩, adjective := i, noun := j }, ?_⟩
    simp only [generateSecurePassword, hi, hj]
    rw [Nat.sub_add_cancel hlo]

/-- The draws 382, 2, 6 give CoolWave482, and HappyParty100 and MagicFlash999
are generated by the smallest and the largest draws. -/
theorem generateSecurePassword_format_witness :
    generateSecurePassword { numbers := 382, adjective := 2, noun := 6 } = "CoolWave482" ∧
    "Happy" ∈ adjectives ∧ "Party" ∈ nouns ∧ 100 ≤ 100 ∧ 100 ≤ 999 ∧
    toString 100 = "100" ∧
    (∃ d : Draws, generateSecurePassword d = "Happy" ++ "Party" ++ toString 100) ∧
    (∃ d : Draws, generateSecurePassword d = "Magic" ++ "Flash" ++ toString 999) := by
  obtain ⟨_, _, _, hdigits, honto, _⟩ := generateSecurePassword_format
  have ha : "Happy" ∈ adjectives := by decide
  have hb : "Party" ∈ nouns := by decide
  refine ⟨by decide, ha, hb, by decide, by decide, ?_, ?_, ?_⟩
  · rw [(hdigits 100 (by decide) (by decide)).1]
    decide
  · exact honto "Happy" ha "Party" hb 100 (by decide) (by decide)
  · exact honto "Magic" (by decide) "Flash" (by decide) 999 (by decide) (by decide)

/-! ### The secret of a reachable state -/

theorem validatePassword_secret (s : ServerState) (env : Env) (candidate : Option JVal) :
    (validatePassword s env candidate).2.currentPassword = s.currentPassword ∨
    (validatePassword s env candidate).2.currentPassword = generateSecurePassword env.draws := by
  unfold validatePassword initializePassword
  split_ifs <;> simp

theorem handleParsed_secret (s : ServerState) (ws : Nat) (env : Env) (data : JVal) :
    (handleParsed s ws env data).1.currentPassword = s.currentPassword ∨
    (handleParsed s ws env data).1.currentPassword = generateSecurePassword env.draws := by
  have hv := validatePassword_secret s env (prop data "password")
  unfold handleParsed
  by_cases h1 : strictEqStr (prop data "type") "host-login" = true
  · simp only [h1, if_true]
    by_cases h2 : (validatePassword s env (prop data "password")).1 = true
    · simp only [h2, if_true]
      exact hv
    · rw [if_neg h2]
      exact hv
  · rw [if_neg h1]
    by_cases h2 : strictEqStr (prop data "type") "request-password" = true
    · rw [if_pos h2]
      exact Or.inl rfl
    · rw [if_neg h2]
      by_cases h3 : strictEqStr (prop data "type") "host-logout" = true
      · rw [if_pos h3]
        by_cases h4 : s.isHost ws = true
        · rw [if_pos h4]
          exact Or.inr rfl
        · rw [if_neg h4]
          exact Or.inl rfl
      · rw [if_neg h3]
        by_cases h4 : strictEqStr (prop data "type") "set-host" = true
        · rw [if_pos h4]
          exact Or.inl rfl
        · rw [if_neg h4]
          exact Or.inl rfl

theorem initialState_secretGenerated (readyState : Nat → Nat) (env : Env) :
    SecretGenerated (initialState readyState env) :=
  ⟨env.draws, rfl⟩

theorem step_secretGenerated (s s1 : ServerState) (env : Env) (e : Event) (out : List Send)
    (hs : SecretGenerated s) (hstep : step s env e = Except.ok (s1, out)) :
    SecretGenerated s1 := by
  have key : ∀ (ws : Nat) (data : JVal), Except.ok (handleParsed s ws env data) =
      (Except.ok (s1, out) : Except JsError (ServerState × List Send)) →
      SecretGenerated s1 := by
    intro ws data hd
    simp only [Except.ok.injEq] at hd
    have h1 : s1 = (handleParsed s ws env data).1 := by rw [hd]
    rcases handleParsed_secret s ws env data with h | h
    · obtain ⟨d, hd2⟩ := hs
      exact ⟨d, by rw [h1, h, hd2]⟩
    · exact ⟨env.draws, by rw [h1, h]⟩
  obtain ⟨d, hd⟩ := hs
  cases e with
  | connect ws =>
    simp only [step, onConnection, Except.ok.injEq, Prod.mk.injEq] at hstep
    exact ⟨d, by rw [← hstep.1]; exact hd⟩
  | close ws =>
    simp only [step, onClose, Except.ok.injEq, Prod.mk.injEq] at hstep
    exact ⟨d, by rw [← hstep.1]; exact hd⟩
  | message ws payload =>
    cases payload with
    | none =>
      simp only [step, onMessage, Except.ok.injEq, Prod.mk.injEq] at hstep
      exact ⟨d, by rw [← hstep.1]; exact hd⟩
    | some data =>
      cases data with
      | null => simp [step, onMessage] at hstep
      | bool b => exact key ws _ hstep
      | num k => exact key ws _ hstep
      | str t => exact key ws _ hstep
      | arr items => exact key ws _ hstep
      | obj fields => exact key ws _ hstep

/-- Every state reached by a run from the initial state has a generated secret. -/
theorem run_secretGenerated (s s1 : ServerState) (evs : List (Env × Event))
    (hs : SecretGenerated s) (hrun : run s evs = Except.ok s1) :
    SecretGenerated s1 := by
  induction evs generalizing s with
  | nil =>
    simp only [run, Except.ok.injEq] at hrun
    exact hrun ▸ hs
  | cons ev rest ih =>
    obtain ⟨env, e⟩ := ev
    cases hstep : step s env e with
    | error err => simp [run, hstep] at hrun
    | ok r =>
      obtain ⟨s2, out⟩ := r
      simp only [run, hstep] at hrun
      exact ih s2 (step_secretGenerated s s2 env e out hs hstep) hrun

theorem onMessage_request_password (s : ServerState) (ws : Nat) (env : Env)
    (fields : List (String × JVal))
    (htype : fields.lookup "type" = some (JVal.str "request-password")) :
    onMessage s ws env (some (JVal.obj fields)) =
      Except.ok (s, [Send.mk ws (OutMsg.passwordResponse s.currentPassword)]) := by
  simp [onMessage, handleParsed, prop, htype, strictEqStr]

/-- C13: in a state whose secret is a generated one, as it is in every state
reachable after initialization, a request-password message changes no state
and is answered with exactly one password-response, sent to the sender, whose
password is the current secret; right after an initialize that is the value
the initialize generated. A host-login carrying this password, processed in
any state with the same secret and expiry (no rotation in between) at a time
not after the expiry, is answered with login-success and makes its sender
Host, changing nothing else. -/
theorem request_password_reply (s : ServerState) (ws : Nat) (env : Env)
    (fields : List (String × JVal))
    (hgen : SecretGenerated s)
    (htype : fields.lookup "type" = some (JVal.str "request-password")) :
    onMessage s ws env (some (JVal.obj fields)) =
      Except.ok (s, [Send.mk ws (OutMsg.passwordResponse s.currentPassword)]) ∧
    (∀ (s0 : ServerState) (env0 : Env), s = initializePassword s0 env0 →
      s.currentPassword = generateSecurePassword env0.draws) ∧
    ∀ (s2 : ServerState) (ws2 : Nat) (env2 : Env) (loginFields : List (String × JVal)),
      s2.currentPassword = s.currentPassword → s2.passwordExpiry = s.passwordExpiry →
      ¬ env2.now > s.passwordExpiry →
      loginFields.lookup "type" = some (JVal.str "host-login") →
      loginFields.lookup "password" = some (JVal.str s.currentPassword) →
      onMessage s2 ws2 env2 (some (JVal.obj loginFields)) =
        Except.ok ({ s2 with isHost := Function.update s2.isHost ws2 true },
          [Send.mk ws2 (OutMsg.loginSuccess "Login successful")]) := by
  refine ⟨onMessage_request_password s ws env fields htype, ?_, ?_⟩
  · intro s0 env0 h
    rw [h]
    rfl
  · intro s2 ws2 env2 loginFields hpw hexp hnow hlt hlp
    have hne : s.currentPassword ≠ "" := by
      obtain ⟨d, hd⟩ := hgen
      rw [hd]
      exact generateSecurePassword_ne_empty d
    have hnow2 : ¬ env2.now > s2.passwordExpiry := by rw [hexp]; exact hnow
    have hv : (validatePassword s2 env2 (loginFields.lookup "password")).1 = true := by
      rw [validatePassword_accepts_iff]
      exact ⟨⟨s.currentPassword, hlp, hne, hpw.symm⟩, hnow2⟩
    have hst := validatePassword_unexpired s2 env2 (loginFields.lookup "password") hnow2
    rw [onMessage_host_login s2 ws2 env2 loginFields hlt, if_pos hv, hst]

/-- After initialization with the draws of CoolWave482 and the connection of
client 0, the request-password of client 0 is answered with CoolWave482, and
its host-login with CoolWave482 at time 6000 makes it Host. -/
theorem request_password_reply_witness :
    ∃ s,
      run (initialState (fun _ => OPEN) scenarioEnv) [(scenarioEnv, Event.connect 0)] =
        Except.ok s ∧
      SecretGenerated s ∧
      requestPasswordFields.lookup "type" = some (JVal.str "request-password") ∧
      onMessage s 0 laterEnv (some (JVal.obj requestPasswordFields)) =
        Except.ok (s, [Send.mk 0 (OutMsg.passwordResponse "CoolWave482")]) ∧
      ¬ laterEnv.now > s.passwordExpiry ∧
      ∃ s3,
        onMessage s 0 laterEnv (some (JVal.obj repeatLoginFields)) =
          Except.ok (s3, [Send.mk 0 (OutMsg.loginSuccess "Login successful")]) ∧
        s3.isHost 0 = true := by
  have hrun : run (initialState (fun _ => OPEN) scenarioEnv) [(scenarioEnv, Event.connect 0)] =
      Except.ok (onConnection (initialState (fun _ => OPEN) scenarioEnv) 0).1 := rfl
  have hgen : SecretGenerated (onConnection (initialState (fun _ => OPEN) scenarioEnv) 0).1 :=
    run_secretGenerated _ _ _ (initialState_secretGenerated _ _) hrun
  have hpw : (onConnection (initialState (fun _ => OPEN) scenarioEnv) 0).1.currentPassword =
      "CoolWave482" := scenario_draws_secret
  have ht : requestPasswordFields.lookup "type" = some (JVal.str "request-password") := by
    simp [requestPasswordFields, List.lookup]
  have hnow : ¬ laterEnv.now >
      (onConnection (initialState (fun _ => OPEN) scenarioEnv) 0).1.passwordExpiry := by
    simp [onConnection, initialState, initializePassword, laterEnv, scenarioEnv,
      PASSWORD_DURATION]
  obtain ⟨hreply, _, hlogin⟩ := request_password_reply
    (onConnection (initialState (fun _ => OPEN) scenarioEnv) 0).1 0 laterEnv
    requestPasswordFields hgen ht
  have hli := hlogin _ 0 laterEnv repeatLoginFields rfl rfl hnow
    (by simp [repeatLoginFields, List.lookup])
    (by rw [hpw]; simp [repeatLoginFields, List.lookup])
  refine ⟨_, hrun, hgen, ht, ?_, hnow, _, hli, ?_⟩
  · rw [hreply, hpw]
  · simp

/-! ### Payloads without a handler branch -/

theorem strictEqStr_eq_false (v : Option JVal) (t : String) (h : v ≠ some (JVal.str t)) :
    strictEqStr v t = false := by
  cases hs : strictEqStr v t with
  | false => rfl
  | true => exact absurd ((strictEqStr_iff v t).1 hs) h

theorem handleParsed_unhandled (s : ServerState) (ws : Nat) (env : Env) (data : JVal)
    (h : ∀ t ∈ handledTypes, prop data "type" ≠ some (JVal.str t)) :
    handleParsed s ws env data = (s, []) := by
  have h1 := strictEqStr_eq_false _ _ (h "host-login" (by simp [handledTypes]))
  have h2 := strictEqStr_eq_false _ _ (h "request-password" (by simp [handledTypes]))
  have h3 := strictEqStr_eq_false _ _ (h "host-logout" (by simp [handledTypes]))
  have h4 := strictEqStr_eq_false _ _ (h "set-host" (by simp [handledTypes]))
  have h5 := strictEqStr_eq_false _ _ (h "host-color" (by simp [handledTypes]))
  have h6 := strictEqStr_eq_false _ _ (h "host-effect" (by simp [handledTypes]))
  simp [handleParsed, h1, h2, h3, h4, h5, h6]

/-- Every payload without a handler branch other than the value null is
dropped silently: a text that JSON.parse rejects, a boolean, number, string
or array, and an object whose type is missing or not a handled one; the
handler returns normally, sends nothing and leaves the state as it was. -/
theorem onMessage_unhandled_dropped (s : ServerState) (ws : Nat) (env : Env) :
    onMessage s ws env none = Except.ok (s, []) ∧
    (∀ b, onMessage s ws env (some (JVal.bool b)) = Except.ok (s, [])) ∧
    (∀ n, onMessage s ws env (some (JVal.num n)) = Except.ok (s, [])) ∧
    (∀ t, onMessage s ws env (some (JVal.str t)) = Except.ok (s, [])) ∧
    (∀ items, onMessage s ws env (some (JVal.arr items)) = Except.ok (s, [])) ∧
    (∀ fields : List (String × JVal),
      (∀ t ∈ handledTypes, fields.lookup "type" ≠ some (JVal.str t)) →
      onMessage s ws env (some (JVal.obj fields)) = Except.ok (s, [])) := by
  refine ⟨rfl, ?_, ?_, ?_, ?_, ?_⟩
  · intro b
    simp only [onMessage]
    rw [handleParsed_unhandled _ _ _ _ (by intro t _; simp [prop])]
  · intro n
    simp only [onMessage]
    rw [handleParsed_unhandled _ _ _ _ (by intro t _; simp [prop])]
  · intro t
    simp only [onMessage]
    rw [handleParsed_unhandled _ _ _ _ (by intro t _; simp [prop])]
  · intro items
    simp only [onMessage]
    rw [handleParsed_unhandled _ _ _ _ (by intro t _; simp [prop])]
  · intro fields h
    simp only [onMessage]
    rw [handleParsed_unhandled s ws env (JVal.obj fields) h]

/-- C15 (code defect): on the payload null, which JSON.parse accepts, the read
data.type of the first branch test throws a TypeError outside the try block,
whatever the state, the sender and the environment: the handler does not
complete and a run containing the event ends with the exception. The
client-connect message of the same sender, by contrast, is dropped silently. -/
theorem null_payload_throws (s : ServerState) (ws : Nat) (env : Env) :
    onMessage s ws env (some JVal.null) = Except.error JsError.typeError ∧
    (∀ rest : List (Env × Event),
      run s ((env, Event.message ws (some JVal.null)) :: rest) =
        Except.error JsError.typeError) ∧
    onMessage s ws env (some (JVal.obj clientConnectFields)) = Except.ok (s, []) := by
  refine ⟨rfl, fun _ => rfl, ?_⟩
  exact (onMessage_unhandled_dropped s ws env).2.2.2.2.2 clientConnectFields
    (by simp [handledTypes, clientConnectFields, List.lookup])

end PhoLight
